import Mathlib

/-!
Verification development for the `parts` GPT library.

The Rust sources are embedded shallowly: byte buffers become `List Nat`
(each element one byte), machine integers become `Nat` (with explicit
wrapping where the source can overflow), fallible functions return
`Except`, and functions that can also panic (slice-index panics) return
`RResult`.  `&'static str` error messages become the `ErrMsg` enumeration,
one constructor per distinct message in the source.

Modules `gpt/header.rs`, `gpt/partition.rs`, `gpt/error.rs` and `types.rs`
of the repository are not present under `src/`; the definitions standing
in for them are marked `Modelled from the spec:` in their doc comments.
Everything else is translated directly from the source files.
-/

set_option maxRecDepth 100000

deriving instance DecidableEq for Except

namespace Parts

/-! ## Byte-buffer helpers -/

/-- The slice `l[i..i+n]` of a byte buffer. -/
def sub (l : List Nat) (i n : Nat) : List Nat := (l.drop i).take n

/-- Little-endian encoding of `v` into `n` bytes (`u32::to_le_bytes` etc.). -/
def leBytes (n v : Nat) : List Nat := (List.range n).map fun i => v / 256 ^ i % 256

/-- Little-endian decoding of a byte slice into a `Nat`. -/
def readLE (l : List Nat) : Nat := l.foldr (fun b acc => acc * 256 + b) 0

/-! ## CRC32 (crc crate, `crc32::IEEE`)

Polynomial 0xEDB88320 (reflected), initial value 0xFFFFFFFF, final XOR
0xFFFFFFFF, as used by `crc32::Digest::new(crc32::IEEE)` in the source. -/

def crcPoly : Nat := 0xEDB88320

def crcBitStep (c : Nat) : Nat := if c % 2 = 1 then (c / 2) ^^^ crcPoly else c / 2

def crcByteStep (c b : Nat) : Nat := (crcBitStep)^[8] (c ^^^ b % 256)

/-- Feed the bytes `l` into a running CRC state `c` (`Digest::write`). -/
def crcAppend (c : Nat) (l : List Nat) : Nat := l.foldl crcByteStep c

/-- CRC32 of a byte list (`Digest::new(IEEE)`, `write`, `sum32`). -/
def crc32 (l : List Nat) : Nat := crcAppend 0xFFFFFFFF l ^^^ 0xFFFFFFFF

/-! ## Error type

Modelled from the spec: `src/gpt/error.rs` is absent from `src/`.  The
variants and their payloads are reconstructed from every use site in
`src/src/gpt.rs` and `src/src/mbr.rs` (`Error::Invalid(&str)`,
`Error::Mbr(&str)`, `Error::Overlap`, `Error::NotEnough`); spec §7 gives
the taxonomy.  Static strings become `ErrMsg` constructors. -/

/-- One constructor per distinct `&'static str` error message in the source. -/
inductive ErrMsg where
  /-- "Invalid Protective MBR" -/
  | invalidProtectiveMbr
  /-- "Corrupt Primary GPT Header" -/
  | corruptPrimaryGptHeader
  /-- "Primary Partition Array CRC32 mismatch" -/
  | primaryArrayCrc32Mismatch
  /-- "Corrupt Backup GPT Header" -/
  | corruptBackupGptHeader
  /-- "Backup Partition Array CRC32 mismatch" -/
  | backupArrayCrc32Mismatch
  /-- "Invalid Signature" -/
  | invalidSignature
  /-- "Invalid Revision" -/
  | invalidRevision
  /-- "Invalid Header Size" -/
  | invalidHeaderSize
  /-- "Invalid Header CRC" -/
  | invalidHeaderCrc
  /-- "invalid signature" (src/src/new/mbr.rs) -/
  | newMbrInvalidSignature
  deriving DecidableEq, Repr

/-- Modelled from the spec: the `Error` enum of the absent
`src/gpt/error.rs`, with exactly the variants used by `src/src/gpt.rs`
and `src/src/mbr.rs`. -/
inductive Error where
  | Invalid (m : ErrMsg)
  | Mbr (m : ErrMsg)
  | Overlap
  | NotEnough
  deriving DecidableEq, Repr

/-- Result of a Rust call that can return, fail, or panic
(index-out-of-bounds and the like). -/
inductive RResult (α : Type) where
  | ok (a : α)
  | err (e : Error)
  | panicked
  deriving DecidableEq, Repr

/-! ## Protective MBR (`src/src/mbr.rs`) -/

/-- `MbrPart` (src/src/mbr.rs): one 16-byte legacy partition record.
Multi-byte fields are kept as raw byte lists exactly as in the struct. -/
structure MbrPart where
  boot : Nat
  start_chs : List Nat
  os_type : Nat
  end_chs : List Nat
  start_lba : List Nat
  size_lba : List Nat
  deriving DecidableEq, Repr

/-- `MbrPart::default()`: all fields zero. -/
def MbrPart.default : MbrPart :=
  { boot := 0, start_chs := [0, 0, 0], os_type := 0, end_chs := [0, 0, 0]
    start_lba := [0, 0, 0, 0], size_lba := [0, 0, 0, 0] }

/-- Byte layout of `MbrPart` (`repr(C)`, alignment 1, 16 bytes). -/
def MbrPart.encode (p : MbrPart) : List Nat :=
  [p.boot] ++ p.start_chs ++ [p.os_type] ++ p.end_chs ++ p.start_lba ++ p.size_lba

/-- Decode an `MbrPart` from its 16-byte slice (the `repr(C)` cast). -/
def MbrPart.decode (b : List Nat) : MbrPart :=
  { boot := b.getD 0 0
    start_chs := sub b 1 3
    os_type := b.getD 4 0
    end_chs := sub b 5 3
    start_lba := sub b 8 4
    size_lba := sub b 12 4 }

/-- The Rust struct has fixed-length array fields; this is that length
information, implicit in the Rust types. -/
def MbrPart.WF (p : MbrPart) : Prop :=
  p.start_chs.length = 3 ∧ p.end_chs.length = 3 ∧
  p.start_lba.length = 4 ∧ p.size_lba.length = 4

instance (p : MbrPart) : Decidable p.WF := by unfold MbrPart.WF; infer_instance

/-- `ProtectiveMbr` (src/src/mbr.rs): the 512-byte GPT Protective MBR.
The four elements of the `partitions` array are separate fields here. -/
structure ProtectiveMbr where
  boot_code : List Nat
  unique_signature : List Nat
  unknown : List Nat
  part0 : MbrPart
  part1 : MbrPart
  part2 : MbrPart
  part3 : MbrPart
  signature : List Nat
  deriving DecidableEq, Repr

/-- Fixed-length array fields of the Rust struct. -/
def ProtectiveMbr.WF (m : ProtectiveMbr) : Prop :=
  m.boot_code.length = 440 ∧ m.unique_signature.length = 4 ∧
  m.unknown.length = 2 ∧ m.signature.length = 2 ∧
  m.part0.WF ∧ m.part1.WF ∧ m.part2.WF ∧ m.part3.WF

instance (m : ProtectiveMbr) : Decidable m.WF := by
  unfold ProtectiveMbr.WF; infer_instance

/-- `ProtectiveMbr::new(last_lba)` (src/src/mbr.rs lines 54-78).
`size_lba` is `u32::try_from(last_lba).unwrap_or(u32::MAX)`. -/
def ProtectiveMbr.new (last_lba : Nat) : ProtectiveMbr :=
  { boot_code := List.replicate 440 0
    unique_signature := [0, 0, 0, 0]
    unknown := [0, 0]
    part0 :=
      { boot := 0
        start_chs := [0x00, 0x02, 0x00]
        os_type := 0xEE
        end_chs := [0xFF, 0xFF, 0xFF]
        start_lba := leBytes 4 1
        size_lba := leBytes 4 (if last_lba ≤ 0xFFFFFFFF then last_lba else 0xFFFFFFFF) }
    part1 := MbrPart.default
    part2 := MbrPart.default
    part3 := MbrPart.default
    signature := [0x55, 0xAA] }

/-- Byte layout of `ProtectiveMbr` (`repr(C)`, alignment 1, 512 bytes). -/
def ProtectiveMbr.to_bytes (m : ProtectiveMbr) : List Nat :=
  m.boot_code ++ m.unique_signature ++ m.unknown ++
    m.part0.encode ++ m.part1.encode ++ m.part2.encode ++ m.part3.encode ++
    m.signature

/-- The `repr(C)` pointer cast of `from_bytes`, without validation. -/
def ProtectiveMbr.decodeRaw (b : List Nat) : ProtectiveMbr :=
  { boot_code := b.take 440
    unique_signature := sub b 440 4
    unknown := sub b 444 2
    part0 := MbrPart.decode (sub b 446 16)
    part1 := MbrPart.decode (sub b 462 16)
    part2 := MbrPart.decode (sub b 478 16)
    part3 := MbrPart.decode (sub b 494 16)
    signature := sub b 510 2 }

/-- `ProtectiveMbr::validate` (src/src/mbr.rs lines 126-163), checks in
source order. -/
def ProtectiveMbr.validate (m : ProtectiveMbr) : Except Error Unit :=
  if m.unique_signature ≠ [0, 0, 0, 0] then
    .error (.Mbr .invalidProtectiveMbr)
  else if m.unknown ≠ [0, 0] then
    .error (.Mbr .invalidProtectiveMbr)
  else if m.part0.boot ≠ 0 then
    .error (.Mbr .invalidProtectiveMbr)
  else if m.part0.start_chs ≠ [0x00, 0x02, 0x00] then
    .error (.Mbr .invalidProtectiveMbr)
  else if m.part0.os_type ≠ 0xEE then
    .error (.Mbr .invalidProtectiveMbr)
  else if m.part0.end_chs ≠ [0xFF, 0xFF, 0xFF] then
    .error (.Mbr .invalidProtectiveMbr)
  else if m.part0.start_lba ≠ leBytes 4 1 then
    .error (.Mbr .invalidProtectiveMbr)
  else if m.part0.size_lba = leBytes 4 0 then
    .error (.Mbr .invalidProtectiveMbr)
  else if m.part1 ≠ MbrPart.default then
    .error (.Mbr .invalidProtectiveMbr)
  else if m.part2 ≠ MbrPart.default then
    .error (.Mbr .invalidProtectiveMbr)
  else if m.part3 ≠ MbrPart.default then
    .error (.Mbr .invalidProtectiveMbr)
  else if m.signature ≠ [0x55, 0xAA] then
    .error (.Mbr .invalidProtectiveMbr)
  else
    .ok ()

/-- `ProtectiveMbr::from_bytes` (src/src/mbr.rs lines 89-98): cast, then
validate.  The Rust function asserts `source.len() == 512`; theorems about
it carry that as a hypothesis. -/
def ProtectiveMbr.from_bytes (b : List Nat) : Except Error ProtectiveMbr :=
  match (ProtectiveMbr.decodeRaw b).validate with
  | .error e => .error e
  | .ok _ => .ok (ProtectiveMbr.decodeRaw b)

/-! ## Draft Protective MBR reader (`src/src/new/mbr.rs`) -/

/-- The `Error` enum of src/src/new/mbr.rs. -/
inductive NewMbrError where
  | NotProtective
  | Unsupported
  | Corrupt (m : ErrMsg)
  deriving DecidableEq, Repr

/-- The `os_type` match arm of `ProtectiveMbr::read`
(src/src/new/mbr.rs lines 138-145) for one partition record. -/
def newMbrOsTypeCheck (p : MbrPart) : Except NewMbrError Unit :=
  if p.os_type = 0xEF then .error .Unsupported
  else if p.os_type = 0xEE then .ok ()
  else if p.os_type = 0 then .ok ()
  else .error .NotProtective

/-- The field checks of `ProtectiveMbr::read` (src/src/new/mbr.rs lines
133-151), after the pointer cast: check the signature, reject `0xEF` and
non-protective OS types, require `partitions[1..]` to be default, and
tolerate everything else (CHS bytes in particular are never examined). -/
def newMbrChecks (m : ProtectiveMbr) : Except NewMbrError ProtectiveMbr :=
  if m.signature ≠ [0x55, 0xAA] then
    .error (.Corrupt .newMbrInvalidSignature)
  else
    match newMbrOsTypeCheck m.part0, newMbrOsTypeCheck m.part1,
        newMbrOsTypeCheck m.part2, newMbrOsTypeCheck m.part3 with
    | .ok _, .ok _, .ok _, .ok _ =>
      if m.part1 ≠ MbrPart.default ∨ m.part2 ≠ MbrPart.default ∨
          m.part3 ≠ MbrPart.default then
        .error .NotProtective
      else
        .ok m
    | .error e, _, _, _ => .error e
    | _, .error e, _, _ => .error e
    | _, _, .error e, _ => .error e
    | _, _, _, .error e => .error e

/-- `ProtectiveMbr::read` (src/src/new/mbr.rs lines 126-152): the
`repr(C)` cast followed by the field checks. -/
def newMbrRead (b : List Nat) : Except NewMbrError ProtectiveMbr :=
  newMbrChecks (ProtectiveMbr.decodeRaw b)

/-! ## Partition entries

Modelled from the spec: `src/gpt/partition.rs` is absent from `src/`.
Spec §3 "Partition entry" gives the 128-byte layout (16 B type GUID,
16 B partition GUID, 8 B start LBA, 8 B end LBA inclusive, 8 B
attributes, 72 B name); §4.5 says `start()`/`end()` return byte offsets
(use sites in src/src/gpt.rs divide them by the block size to recover
LBAs, and `to_bytes` takes the block size).  GUID and name bytes are
kept in their on-disk form. -/

/-- Size in bytes of one partition entry (`PARTITION_ENTRY_SIZE`). -/
def PARTITION_ENTRY_SIZE : Nat := 128

/-- Modelled from the spec: the in-memory partition entry of the absent
`src/gpt/partition.rs`.  `start`/`end_` are byte offsets (§4.5). -/
structure Partition where
  type_guid : List Nat
  guid : List Nat
  start : Nat
  end_ : Nat
  attributes : Nat
  name : List Nat
  deriving DecidableEq, Repr

/-- Modelled from the spec: `Partition::new()`, the all-zero "unused"
sentinel (§3: an entry is used iff its type GUID is non-zero). -/
def Partition.new : Partition :=
  { type_guid := List.replicate 16 0, guid := List.replicate 16 0
    start := 0, end_ := 0, attributes := 0, name := List.replicate 72 0 }

/-- Modelled from the spec: `Partition::from_bytes(source, block_size)`
(§4.5); LBAs are converted to byte offsets with the block size. -/
def Partition.from_bytes (b : List Nat) (bs : Nat) : Partition :=
  { type_guid := sub b 0 16
    guid := sub b 16 16
    start := readLE (sub b 32 8) * bs
    end_ := readLE (sub b 40 8) * bs
    attributes := readLE (sub b 48 8)
    name := sub b 56 72 }

/-- Modelled from the spec: `Partition::to_bytes(dest, block_size)`
(§4.5, §6: 128-byte little-endian layout). -/
def Partition.to_bytes (p : Partition) (bs : Nat) : List Nat :=
  p.type_guid ++ p.guid ++ leBytes 8 (p.start / bs) ++ leBytes 8 (p.end_ / bs) ++
    leBytes 8 p.attributes ++ p.name

/-- Insertion step of the sort below. -/
def insertByStart (p : Partition) : List Partition → List Partition
  | [] => [p]
  | q :: t => if p.start ≤ q.start then p :: q :: t else q :: insertByStart p t

/-- `sort_unstable_by_key(|p| p.start())`: an unstable sort returns *some*
permutation sorted by the key; insertion sort is the deterministic
representative used here. -/
def sortByStart (l : List Partition) : List Partition := l.foldr insertByStart []

/-- Sort the first `m` elements in place, leaving the rest
(`self.partitions_mut().sort_unstable_by_key(..)` sorts only the used
prefix of the fixed array). -/
def sortPrefix (l : List Partition) (m : Nat) : List Partition :=
  sortByStart (l.take m) ++ l.drop m

/-! ## GPT header

Modelled from the spec: `src/gpt/header.rs` is absent from `src/`. -/

/-- `HEADER_SIZE`: the 92-byte GPT header (§3, §6). -/
def HEADER_SIZE : Nat := 92

/-- `MIN_PARTITIONS_BYTES`: reserved partition-array minimum (§6). -/
def MIN_PARTITIONS_BYTES : Nat := 16384

/-- The UEFI mixed-endian GUID byte swap (§2, §4.2): the first three
fields change endianness, the last two stay.  An involution on 16-byte
lists. -/
def swapME (l : List Nat) : List Nat :=
  match l with
  | [a, b, c, d, e, f, g, h, i, j, k, m, n, o, p, q] =>
    [d, c, b, a, f, e, h, g, i, j, k, m, n, o, p, q]
  | x => x

/-- `"EFI PART"` in ASCII. -/
def SIGNATURE : List Nat := [0x45, 0x46, 0x49, 0x20, 0x50, 0x41, 0x52, 0x54]

/-- Modelled from the spec: the parsed `Header` of the absent
`src/gpt/header.rs`, with the fields `validate` and
`from_bytes_with_size` in src/src/gpt.rs read (`this`, `alt`,
`first_usable`, `last_usable`, `uuid`, `array`, `partitions`,
`partitions_crc32`).  `this_lba`/`alt_lba`/`array` are LBAs;
`uuid` is the corrected (in-memory) GUID byte order. -/
structure Header where
  this_lba : Nat
  alt_lba : Nat
  first_usable : Nat
  last_usable : Nat
  uuid : List Nat
  array : Nat
  partitions : Nat
  partition_size : Nat
  partitions_crc32 : Nat
  deriving DecidableEq, Repr

/-- Modelled from the spec: `Header::new(this, alt, partitions, crc,
uuid, block_size, disk_size)` of the absent `src/gpt/header.rs`, as
called from src/src/gpt.rs lines 625-633 and 645-653.  §4.4: primary
(`this = 1`) gets `partition_array_start = 2`, backup gets
`last_usable_lba + 1`; `last_usable = LastLBA − array_blocks − 1` with
`array_blocks` the blocks of the 16384-byte reserved array (the retained
draft src/src/new/header.rs line 147 computes it as
`MIN_PARTITION_BYTES / block_size`); `first_usable` is the library's
fixed Optimal-alignment 2048 (§4.4; the cfdisk test image matched by
`create_test_parts` in src/src/gpt.rs uses 2048). -/
def Header.new (this_lba alt_lba : Nat) (partitions : Nat) (partitions_crc32 : Nat)
    (uuid : List Nat) (bs ds : Nat) : Header :=
  let last := ds / bs - 1
  let array_blocks := MIN_PARTITIONS_BYTES / bs
  let last_usable := last - array_blocks - 1
  { this_lba, alt_lba
    first_usable := 2048
    last_usable, uuid
    array := if this_lba = 1 then 2 else last_usable + 1
    partitions
    partition_size := 128
    partitions_crc32 }

/-- `partition_size` must be `128·2^n` (spec §3, §7 InvalidHeaderSize). -/
def partSizeOk (k : Nat) : Bool :=
  (List.range 32).any fun n => decide (k = 128 * 2 ^ n)

/-- The 92-byte serialisation of a header with the given value in the
`header_crc32` field slot (bytes 16..20). -/
def Header.baseBytes (h : Header) (crcField : Nat) : List Nat :=
  SIGNATURE ++ (leBytes 4 0x10000 ++ (leBytes 4 HEADER_SIZE ++ (leBytes 4 crcField ++
    (leBytes 4 0 ++ (leBytes 8 h.this_lba ++ (leBytes 8 h.alt_lba ++
    (leBytes 8 h.first_usable ++ (leBytes 8 h.last_usable ++ (swapME h.uuid ++
    (leBytes 8 h.array ++ (leBytes 4 h.partitions ++ (leBytes 4 h.partition_size ++
    leBytes 4 h.partitions_crc32))))))))))))

/-- Modelled from the spec: `Header::to_bytes` of the absent
`src/gpt/header.rs` (§4.4 write: serialize the 92-byte layout of §3/§6
with `header_crc32` zero, CRC32 the whole header, patch the CRC in at
offset 16 — i.e. re-emit with the computed CRC in the field slot; the
GUID is written mixed-endian). -/
def Header.to_bytes (h : Header) : List Nat :=
  Header.baseBytes h (crc32 (Header.baseBytes h 0))

/-- The implicit field constraints of the Rust `Header` struct: the GUID
is 16 bytes, the numeric fields fit their wire width, and the entry size
is `128·2^n`. -/
def Header.WF (h : Header) : Prop :=
  h.uuid.length = 16 ∧ h.this_lba < 2 ^ 64 ∧ h.alt_lba < 2 ^ 64 ∧
  h.first_usable < 2 ^ 64 ∧ h.last_usable < 2 ^ 64 ∧ h.array < 2 ^ 64 ∧
  h.partitions < 2 ^ 32 ∧ h.partition_size < 2 ^ 32 ∧
  partSizeOk h.partition_size = true ∧ h.partitions_crc32 < 2 ^ 32

instance (h : Header) : Decidable h.WF := by unfold Header.WF; infer_instance

/-- Modelled from the spec: `Header::from_bytes(source, block_size)` of
the absent `src/gpt/header.rs` (§4.4 read: validate signature, revision,
header-size bounds, header CRC32 over `bytes[0..header_size]` with the
CRC field zeroed, and the `128·2^n` entry-size constraint, then decode
the fields of §3).  The test in src/src/gpt.rs line 951 fixes the bad
signature message as "Invalid Signature". -/
def Header.from_bytes (b : List Nat) (bs : Nat) : Except Error Header :=
  if sub b 0 8 ≠ SIGNATURE then .error (.Invalid .invalidSignature)
  else if readLE (sub b 8 4) ≠ 0x10000 then .error (.Invalid .invalidRevision)
  else
    let hs := readLE (sub b 12 4)
    if hs < HEADER_SIZE ∨ bs < hs then .error (.Invalid .invalidHeaderSize)
    else if ¬ partSizeOk (readLE (sub b 84 4)) then .error (.Invalid .invalidHeaderSize)
    else if crc32 (b.take 16 ++ leBytes 4 0 ++ sub b 20 (hs - 20)) ≠ readLE (sub b 16 4) then
      .error (.Invalid .invalidHeaderCrc)
    else
      .ok { this_lba := readLE (sub b 24 8)
            alt_lba := readLE (sub b 32 8)
            first_usable := readLE (sub b 40 8)
            last_usable := readLE (sub b 48 8)
            uuid := swapME (sub b 56 16)
            array := readLE (sub b 72 8)
            partitions := readLE (sub b 80 4)
            partition_size := readLE (sub b 84 4)
            partitions_crc32 := readLE (sub b 88 4) }

/-! ## Reading and validating a table (`src/src/gpt.rs`) -/

/-- A successful read callback: byte offset and length to bytes.
(`FnMut(Offset, &mut [u8]) -> Result<()>` specialised to the successful
case; the claims below only concern reads whose callback succeeds.) -/
abbrev ReadFn := Nat → Nat → List Nat

/-- The callback invocations of one array pass: entry index and bytes. -/
def partCalls (func : ReadFn) (count : Nat) (offset : Nat) : List (Nat × List Nat) :=
  (List.range count).map fun i =>
    (i, func (offset + PARTITION_ENTRY_SIZE * i) PARTITION_ENTRY_SIZE)

/-- Modelled from the spec: `calculate_part_crc` of the absent
`src/gpt/header.rs`, as called from `validate` (src/src/gpt.rs lines
35-40 and 55-60).  §4.6 read step 3: the array spans `count` entries of
128 bytes starting at `offset`; CRC32 them; the callback `cb` receives
each entry's index and bytes (the use at src/src/gpt.rs lines 561-565
fixes the first callback argument as the entry index).  Returns the CRC
and the list of callback invocations in order. -/
def calculate_part_crc (func : ReadFn) (count : Nat) (offset : Nat) :
    Nat × List (Nat × List Nat) :=
  ((partCalls func count offset).foldl (fun c e => crcAppend c e.2) 0xFFFFFFFF ^^^ 0xFFFFFFFF,
    partCalls func count offset)

/-- `validate` (src/src/gpt.rs lines 24-66), checks in source order.
On success, returns the partition-decoding callback invocations of both
array passes (primary array first, then backup). -/
def validate (primary alt : Header) (func : ReadFn) (bs ds : Nat) :
    Except Error (List (Nat × List Nat)) :=
  if primary.this_lba ≠ 1 then .error (.Invalid .corruptPrimaryGptHeader)
  else if (calculate_part_crc func primary.partitions (primary.array * bs)).1
      ≠ primary.partitions_crc32 then
    .error (.Invalid .primaryArrayCrc32Mismatch)
  else if primary.alt_lba ≠ ds / bs - 1 then .error (.Invalid .corruptPrimaryGptHeader)
  else if alt.this_lba ≠ ds / bs - 1 then .error (.Invalid .corruptBackupGptHeader)
  else if alt.alt_lba ≠ 1 then .error (.Invalid .corruptBackupGptHeader)
  else if (calculate_part_crc func alt.partitions (alt.array * bs)).1
      ≠ alt.partitions_crc32 then
    .error (.Invalid .backupArrayCrc32Mismatch)
  else
    .ok (partCalls func primary.partitions (primary.array * bs) ++
      partCalls func alt.partitions (alt.array * bs))

/-- `Gpt<N>` (src/src/gpt.rs lines 441-452): fixed-capacity table.
`partitions` always has length `N`; `partitions_len` counts used slots. -/
structure Gpt where
  uuid : List Nat
  partitions : List Partition
  partitions_len : Nat
  deriving DecidableEq, Repr

/-- The public `partitions()` accessor (src/src/gpt.rs lines 753-756):
the first `min(partitions_len, N)` slots. -/
def Gpt.partitionsView (g : Gpt) : List Partition :=
  g.partitions.take (min g.partitions_len g.partitions.length)

/-- One step of the partition-decoding callback of
`Gpt::from_bytes_with_size` (src/src/gpt.rs lines 561-565): write slot
`i` if it is in bounds. -/
def gptReadStep (bs : Nat) (arr : List Partition) (c : Nat × List Nat) : List Partition :=
  if c.1 < arr.length then arr.set c.1 (Partition.from_bytes c.2 bs) else arr

/-- `Gpt::from_bytes_with_size` (src/src/gpt.rs lines 539-577) for
capacity `N`.  The Rust function asserts `primary.len() = 2·bs` and
`alt.len() = bs`; theorems carry those as hypotheses. -/
def Gpt.from_bytes_with_size (N : Nat) (primaryB altB : List Nat) (func : ReadFn)
    (bs ds : Nat) : Except Error Gpt :=
  match ProtectiveMbr.from_bytes (primaryB.take 512) with
  | .error _ => .error (.Invalid .invalidProtectiveMbr)
  | .ok _ =>
    match Header.from_bytes (primaryB.drop 512) bs with
    | .error e => .error e
    | .ok primary =>
      match Header.from_bytes altB bs with
      | .error e => .error e
      | .ok alt =>
        match validate primary alt func bs ds with
        | .error e => .error e
        | .ok calls =>
          .ok { uuid := primary.uuid
                partitions := calls.foldl (gptReadStep bs) (List.replicate N Partition.new)
                partitions_len :=
                  (calls.foldl (gptReadStep bs) (List.replicate N Partition.new)).countP
                    fun p => decide (p ≠ Partition.new) }

/-- `Gpt::check_overlap` (src/src/gpt.rs lines 798-805): errors iff the
*new* partition's start falls inside an existing used partition. -/
def Gpt.check_overlap (g : Gpt) (part : Partition) : Except Error Unit :=
  if g.partitionsView.any (fun existing =>
      decide (part.start ≥ existing.start) && decide (part.start ≤ existing.end_)) then
    .error .Overlap
  else .ok ()

/-- `Gpt::add_partition` (src/src/gpt.rs lines 765-772).  The write
`self.partitions[len] = part` panics when every slot is used
(`len = N`), hence the `RResult`. -/
def Gpt.add_partition (g : Gpt) (part : Partition) : RResult Gpt :=
  match g.check_overlap part with
  | .error e => .err e
  | .ok _ =>
    let len := min g.partitions_len g.partitions.length
    if len < g.partitions.length then
      let arr := g.partitions.set len part
      let len' := g.partitions_len + 1
      .ok { uuid := g.uuid
            partitions := sortPrefix arr (min len' arr.length)
            partitions_len := len' }
    else .panicked

/-- `Gpt::remove_partition` (src/src/gpt.rs lines 776-780): overwrite
the indexed slot of the used view with the unused sentinel, decrement
the length, sort the *new, shorter* used prefix.  Indexing
`partitions_mut()[index]` out of bounds panics. -/
def Gpt.remove_partition (g : Gpt) (index : Nat) : RResult Gpt :=
  let len := min g.partitions_len g.partitions.length
  if index < len then
    let arr := g.partitions.set index Partition.new
    let len' := g.partitions_len - 1
    .ok { uuid := g.uuid
          partitions := sortPrefix arr (min len' arr.length)
          partitions_len := len' }
  else .panicked

/-! ## Writing a table (`src/src/gpt.rs`) -/

/-- One write call: byte offset and the bytes written. -/
abbrev WriteCall := Nat × List Nat

/-- `Gpt::write_header_array` (src/src/gpt.rs lines 807-827): the header
is written first, at `last_lba` (the header's own LBA as passed by the
caller), then every slot of the fixed array at consecutive 128-byte
offsets from the header's `array` field. -/
def Gpt.write_header_array (g : Gpt) (header : Header) (header_lba : Nat)
    (bs : Nat) : List WriteCall :=
  (header_lba * bs, header.to_bytes) ::
    g.partitions.enum.map fun c =>
      (header.array * bs + PARTITION_ENTRY_SIZE * c.1, c.2.to_bytes bs)

/-- `Gpt::to_bytes_with_size` (src/src/gpt.rs lines 603-656), with the
write callback reified as the returned list of write calls, in order.
The MBR write precedes the bounds check, so it is emitted even when the
function then fails with `NotEnough`. -/
def Gpt.to_bytes_with_size (g : Gpt) (bs ds : Nat) :
    Except Error Unit × List WriteCall :=
  let last := ds / bs - 1
  let mbrW : WriteCall := (0, (ProtectiveMbr.new last).to_bytes)
  let parts_crc :=
    g.partitions.foldl (fun c p => crcAppend c (p.to_bytes bs)) 0xFFFFFFFF ^^^ 0xFFFFFFFF
  let alt := Header.new last 1 g.partitions.length parts_crc g.uuid bs ds
  if g.partitionsView.any (fun p =>
      decide (p.start / bs < alt.first_usable) || decide (p.end_ / bs > alt.last_usable)) then
    (.error .NotEnough, [mbrW])
  else
    let primary := Header.new 1 last g.partitions.length parts_crc g.uuid bs ds
    (.ok (), mbrW :: (g.write_header_array alt last bs ++
      g.write_header_array primary 1 bs))

/-! ## The dynamic-capacity variant `_GptC` (src/src/gpt.rs lines 76-401) -/

/-- `_GptC<Vec<Partition>>`, the `std` default (src/src/gpt.rs lines
135-145): unbounded partition list. -/
structure GptC where
  uuid : List Nat
  partitions : List Partition
  deriving DecidableEq, Repr

/-- `_GptC::from_bytes_with_func` (src/src/gpt.rs lines 178-209) for the
`Vec` collection, whose `push` always succeeds: the callback pushes
*every* decoded entry of both array passes. -/
def GptC.from_bytes_with_func (primaryB altB : List Nat) (func : ReadFn)
    (bs ds : Nat) : Except Error GptC :=
  match ProtectiveMbr.from_bytes (primaryB.take 512) with
  | .error _ => .error (.Invalid .invalidProtectiveMbr)
  | .ok _ =>
    match Header.from_bytes (primaryB.drop 512) bs with
    | .error e => .error e
    | .ok primary =>
      match Header.from_bytes altB bs with
      | .error e => .error e
      | .ok alt =>
        match validate primary alt func bs ds with
        | .error e => .error e
        | .ok calls =>
          .ok { uuid := primary.uuid
                partitions := calls.map fun c => Partition.from_bytes c.2 bs }

/-- `_GptC::check_overlap` (src/src/gpt.rs lines 371-378), over the full
partition list. -/
def GptC.check_overlap (partitionList : List Partition) (part : Partition) :
    Except Error Unit :=
  if partitionList.any (fun existing =>
      decide (part.start ≥ existing.start) && decide (part.start ≤ existing.end_)) then
    .error .Overlap
  else .ok ()

/-- `_GptC<ArrayVec<..>>`: the `no_std` fixed-capacity collection.
`cap` is the compile-time capacity `N`. -/
structure GptAV where
  uuid : List Nat
  cap : Nat
  partitions : List Partition
  deriving DecidableEq, Repr

/-- `_GptC::add_partition` (src/src/gpt.rs lines 346-351) for the
`ArrayVec` collection, whose `push` is `try_push(..).map_err(|_|
Error::Overlap)` (lines 101-103): a full collection yields
`Error::Overlap` and leaves the table unchanged. -/
def GptAV.add_partition (g : GptAV) (part : Partition) : Except Error GptAV :=
  match GptC.check_overlap g.partitions part with
  | .error e => .error e
  | .ok _ =>
    if g.partitions.length < g.cap then
      .ok { g with partitions := sortByStart (g.partitions ++ [part]) }
    else .error .Overlap

/-! ## Draft header builder (`src/src/new/header.rs`) -/

/-- `HeaderKind` (src/src/new/header.rs lines 69-72). -/
inductive HeaderKind where
  | Primary
  | Backup
  deriving DecidableEq, Repr

/-- `Align` (src/src/new/header.rs lines 75-81). -/
inductive Align where
  | Optimal
  | Minimal
  deriving DecidableEq, Repr

/-- `Header` (src/src/new/header.rs lines 86-134), all fields. -/
structure NewHeader where
  signature : List Nat
  revision : Nat
  header_size : Nat
  header_crc32 : Nat
  reserved : Nat
  this_lba : Nat
  alt_lba : Nat
  first_usable_lba : Nat
  last_usable_lba : Nat
  disk_guid : List Nat
  partition_array_start : Nat
  partitions : Nat
  partition_size : Nat
  partitions_crc32 : Nat
  deriving DecidableEq, Repr

/-- `Header::new` (src/src/new/header.rs lines 138-182), translated
clause by clause.  `array_lba_size = MIN_PARTITION_BYTES / block_size`
(integer division) does not depend on `partitions`. -/
def NewHeader.new (kind : HeaderKind) (align : Align) (partitions_crc32 partitions : Nat)
    (disk_guid : List Nat) (disk_size block_size : Nat) : NewHeader :=
  let array_lba_size := MIN_PARTITIONS_BYTES / block_size
  let last := disk_size / block_size - 1
  let last_usable_lba := last - array_lba_size - 1
  let alt := last
  { signature := SIGNATURE
    revision := 0x10000
    header_size := HEADER_SIZE
    header_crc32 := 0
    reserved := 0
    this_lba := match kind with | .Primary => 1 | .Backup => alt
    alt_lba := match kind with | .Backup => 1 | .Primary => alt
    first_usable_lba := match align with | .Optimal => 2048 | .Minimal => array_lba_size + 2
    last_usable_lba
    disk_guid
    partition_array_start := match kind with | .Primary => 2 | .Backup => last_usable_lba + 1
    partitions
    partition_size := 128
    partitions_crc32 }

/-! ## Concrete fixtures

A 10 MiB disk with 512-byte blocks (the geometry of the repository's own
test images): 20480 blocks, `LastLBA = 20479`, 32 array blocks,
`last_usable = 20446`. -/

/-- A used partition entry with the given start/end byte offsets. -/
def mkPart (s e : Nat) : Partition :=
  { type_guid := 1 :: List.replicate 15 0, guid := s % 256 :: List.replicate 15 0
    start := s, end_ := e, attributes := 0, name := List.replicate 72 0 }

def uuidZ : List Nat := List.replicate 16 0

def uuidA : List Nat := 0xAA :: List.replicate 15 0

def uuidB : List Nat := 0xBB :: List.replicate 15 0

/-- Empty capacity-4 table. -/
def gEmpty4 : Gpt := { uuid := uuidZ, partitions := List.replicate 4 Partition.new, partitions_len := 0 }

/-- Existing partition, LBAs 10..20 (byte offsets, 512-byte blocks). -/
def pOv1 : Partition := mkPart 5120 10240

/-- A partition spanning LBAs 5..30: it starts before `pOv1` and ends
after it, overlapping it entirely. -/
def pOv2 : Partition := mkPart 2560 15360

def gC1mid : Gpt := { uuid := uuidZ, partitions := [pOv1, Partition.new, Partition.new, Partition.new], partitions_len := 1 }

def gC1end : Gpt := { uuid := uuidZ, partitions := [pOv2, pOv1, Partition.new, Partition.new], partitions_len := 2 }

/-- Used partition at LBAs 2048..4095 (1 MiB..2 MiB). -/
def qA : Partition := mkPart (2048 * 512) (4095 * 512)

/-- Used partition at LBAs 8192..10239 (4 MiB..5 MiB). -/
def qB : Partition := mkPart (8192 * 512) (10239 * 512)

def gC3 : Gpt := { uuid := uuidZ, partitions := [qA, qB], partitions_len := 2 }

def gC3res : Gpt := { uuid := uuidZ, partitions := [Partition.new, qB], partitions_len := 1 }

/-- Capacity-1 table with its single slot used. -/
def gFull : Gpt := { uuid := uuidZ, partitions := [qA], partitions_len := 1 }

/-- Empty capacity-1 table. -/
def gOOR : Gpt := { uuid := uuidZ, partitions := [Partition.new], partitions_len := 0 }

/-- A partition far beyond the usable range of any 10 MiB disk
(start LBA 1000000000). -/
def pFar : Partition := mkPart (512 * 1000000000) (512 * 1000000001)

def gOORres : Gpt := { uuid := uuidZ, partitions := [pFar], partitions_len := 1 }

/-- Capacity-1 table holding `qA`, used for the write trace. -/
def gW : Gpt := { uuid := uuidZ, partitions := [qA], partitions_len := 1 }

/-- Primary header of the inconsistent pair: disk GUID `uuidA`, empty
array, and a usable range with `first_usable > last_usable`. -/
def hP4 : Header :=
  { this_lba := 1, alt_lba := 20479, first_usable := 9999, last_usable := 10
    uuid := uuidA, array := 2, partitions := 0, partition_size := 128, partitions_crc32 := 0 }

/-- Backup header of the inconsistent pair: different disk GUID `uuidB`
and a sane usable range, disagreeing with the primary's. -/
def hB4 : Header :=
  { this_lba := 20479, alt_lba := 1, first_usable := 2048, last_usable := 20446
    uuid := uuidB, array := 20447, partitions := 0, partition_size := 128
    partitions_crc32 := 0 }

def primaryB4 : List Nat :=
  (ProtectiveMbr.new 20479).to_bytes ++ (hP4.to_bytes ++ List.replicate 420 0)

def altB4 : List Nat := hB4.to_bytes ++ List.replicate 420 0

/-- Read callback returning zero bytes everywhere. -/
def zfunc : ReadFn := fun _ n => List.replicate n 0

/-- The table produced by reading the inconsistent pair (capacity 128). -/
def gRead4 : Gpt := { uuid := uuidA, partitions := List.replicate 128 Partition.new, partitions_len := 0 }

/-- On-disk bytes of the primary-array entry of the C10 image. -/
def entryA : List Nat := (mkPart (3000 * 512) (4000 * 512)).to_bytes 512

/-- On-disk bytes of the backup-array entry of the C10 image (differs
from `entryA`). -/
def entryB : List Nat := (mkPart (5000 * 512) (6000 * 512)).to_bytes 512

def hP10 : Header :=
  { this_lba := 1, alt_lba := 20479, first_usable := 2048, last_usable := 20446
    uuid := uuidA, array := 2, partitions := 1, partition_size := 128, partitions_crc32 := crc32 entryA }

def hB10 : Header :=
  { this_lba := 20479, alt_lba := 1, first_usable := 2048, last_usable := 20446
    uuid := uuidA, array := 20447, partitions := 1, partition_size := 128, partitions_crc32 := crc32 entryB }

def primaryB10 : List Nat :=
  (ProtectiveMbr.new 20479).to_bytes ++ (hP10.to_bytes ++ List.replicate 420 0)

def altB10 : List Nat := hB10.to_bytes ++ List.replicate 420 0

/-- Read callback of the C10 image: the primary array (offset 1024)
holds `entryA`, the backup array (offset 20447·512) holds `entryB`. -/
def func10 : ReadFn := fun off n =>
  if off = 1024 then entryA else if off = 20447 * 512 then entryB else List.replicate n 0

/-- Result of reading the C10 image with capacity 4: the backup pass
overwrote slot 0 with the entry decoded from `entryB`. -/
def gRead10 : Gpt :=
  { uuid := uuidA
    partitions := [mkPart (5000 * 512) (6000 * 512), Partition.new, Partition.new, Partition.new]
    partitions_len := 1 }

/-- The canonical Protective MBR with the two CHS fields replaced. -/
def mbrWithChs (last : Nat) (sc ec : List Nat) : ProtectiveMbr :=
  { ProtectiveMbr.new last with
    part0 := { (ProtectiveMbr.new last).part0 with start_chs := sc, end_chs := ec } }

/-- The GNU-parted CHS variant observed in the repository's own test
data (src/src/new/mbr.rs lines 234-238): start CHS `00 01 00`, end CHS
`FE FF FF`. -/
def mbrParted : ProtectiveMbr := mbrWithChs 20479 [0, 1, 0] [254, 255, 255]

/-- Full `ArrayVec`-backed table of capacity 1. -/
def gavFull : GptAV := { uuid := uuidZ, cap := 1, partitions := [qA] }

/-- Result of reading the C10 image through the dynamic-capacity
`_GptC`: the single on-disk entry appears twice, once decoded from the
primary array and once from the backup array. -/
def gcRead10 : GptC :=
  { uuid := uuidA
    partitions := [mkPart (3000 * 512) (4000 * 512), mkPart (5000 * 512) (6000 * 512)] }

/-! ## Byte-layout lemmas -/

theorem sub_append_drop (l : List Nat) (i n : Nat) :
    sub l i n ++ l.drop (i + n) = l.drop i := by
  unfold sub
  rw [← List.drop_drop]
  exact List.take_append_drop n (l.drop i)

theorem getD_cons_drop (l : List Nat) (i : Nat) (h : i < l.length) :
    [l.getD i 0] ++ l.drop (i + 1) = l.drop i := by
  rw [List.getD_eq_getElem l 0 h, List.drop_eq_getElem_cons h]
  rfl

theorem sub_last (l : List Nat) (i n : Nat) (h : l.length ≤ i + n) :
    sub l i n = l.drop i :=
  List.take_of_length_le (by simp [List.length_drop]; omega)

theorem sub_length (l : List Nat) (i n : Nat) (h : i + n ≤ l.length) :
    (sub l i n).length = n := by
  simp [sub]; omega

/-- `sub_append_drop` with the end index given as a literal. -/
theorem sub_step (l : List Nat) (i n j : Nat) (hj : i + n = j) :
    sub l i n ++ l.drop j = l.drop i := by
  rw [← hj]; exact sub_append_drop l i n

/-- `getD_cons_drop` with the end index given as a literal. -/
theorem getD_step (l : List Nat) (i j : Nat) (hj : i + 1 = j) (h : i < l.length) :
    [l.getD i 0] ++ l.drop j = l.drop i := by
  rw [← hj]; exact getD_cons_drop l i h

theorem leBytes_length (n v : Nat) : (leBytes n v).length = n := by
  simp [leBytes]

theorem length_eq_four {l : List Nat} :
    l.length = 4 ↔ ∃ a b c d, l = [a, b, c, d] := by
  constructor
  · intro h
    cases l with
    | nil => simp at h
    | cons a t =>
      obtain ⟨b, c, d, rfl⟩ := List.length_eq_three.mp (by simpa using h)
      exact ⟨a, b, c, d, rfl⟩
  · rintro ⟨a, b, c, d, rfl⟩
    rfl

/-- Re-serialising a decoded 16-byte partition record reproduces it. -/
theorem MbrPart.encode_decode (b : List Nat) (h : b.length = 16) :
    (MbrPart.decode b).encode = b := by
  have h12 : sub b 12 4 = b.drop 12 := sub_last b 12 4 (by omega)
  have e8 := sub_step b 8 4 12 (by norm_num)
  have e5 := sub_step b 5 3 8 (by norm_num)
  have e4 := getD_step b 4 5 (by norm_num) (by omega)
  have e1 := sub_step b 1 3 4 (by norm_num)
  have e0 := getD_step b 0 1 (by norm_num) (by omega)
  simp only [MbrPart.encode, MbrPart.decode, List.append_assoc]
  rw [h12, e8, e5, e4, e1, e0, List.drop_zero]

/-- Decoding a serialised partition record gives it back. -/
theorem MbrPart.decode_encode (p : MbrPart) (h : p.WF) :
    MbrPart.decode p.encode = p := by
  obtain ⟨boot, sc, os, ec, sl, zl⟩ := p
  obtain ⟨h1, h2, h3, h4⟩ := h
  obtain ⟨a1, a2, a3, rfl⟩ := List.length_eq_three.mp h1
  obtain ⟨b1, b2, b3, rfl⟩ := List.length_eq_three.mp h2
  obtain ⟨c1, c2, c3, c4, rfl⟩ := length_eq_four.mp h3
  obtain ⟨d1, d2, d3, d4, rfl⟩ := length_eq_four.mp h4
  rfl

theorem MbrPart.encode_length (p : MbrPart) (h : p.WF) : p.encode.length = 16 := by
  obtain ⟨h1, h2, h3, h4⟩ := h
  simp [MbrPart.encode, h1, h2, h3, h4]

theorem ProtectiveMbr.to_bytes_length (m : ProtectiveMbr) (h : m.WF) :
    m.to_bytes.length = 512 := by
  obtain ⟨h1, h2, h3, h4, h5, h6, h7, h8⟩ := h
  simp [ProtectiveMbr.to_bytes, h1, h2, h3, h4,
    MbrPart.encode_length _ h5, MbrPart.encode_length _ h6,
    MbrPart.encode_length _ h7, MbrPart.encode_length _ h8]

/-- Re-serialising a decoded 512-byte MBR sector reproduces it
byte-for-byte (the `repr(C)` cast in `from_bytes` is the identity on the
underlying bytes). -/
theorem ProtectiveMbr.encode_decode_full (b : List Nat) (h : b.length = 512) :
    (ProtectiveMbr.decodeRaw b).to_bytes = b := by
  have h510 : sub b 510 2 = b.drop 510 := sub_last b 510 2 (by omega)
  have e494 := sub_step b 494 16 510 (by norm_num)
  have e478 := sub_step b 478 16 494 (by norm_num)
  have e462 := sub_step b 462 16 478 (by norm_num)
  have e446 := sub_step b 446 16 462 (by norm_num)
  have e444 := sub_step b 444 2 446 (by norm_num)
  have e440 := sub_step b 440 4 444 (by norm_num)
  have l494 := MbrPart.encode_decode (sub b 494 16) (sub_length b 494 16 (by omega))
  have l478 := MbrPart.encode_decode (sub b 478 16) (sub_length b 478 16 (by omega))
  have l462 := MbrPart.encode_decode (sub b 462 16) (sub_length b 462 16 (by omega))
  have l446 := MbrPart.encode_decode (sub b 446 16) (sub_length b 446 16 (by omega))
  simp only [ProtectiveMbr.to_bytes, ProtectiveMbr.decodeRaw, List.append_assoc]
  rw [l494, l478, l462, l446, h510, e494, e478, e462, e446, e444, e440]
  exact List.take_append_drop 440 b

/-- Advance a running drop-equation across one field of known length. -/
theorem drop_step (l pre rest : List Nat) (i n j : Nat) (hd : l.drop i = pre ++ rest)
    (hl : pre.length = n) (hj : i + n = j) : l.drop j = rest := by
  rw [← hj, ← List.drop_drop, hd, List.drop_left' hl]

/-- Decoding a serialised MBR gives it back. -/
theorem ProtectiveMbr.decode_encode_full (m : ProtectiveMbr) (h : m.WF) :
    ProtectiveMbr.decodeRaw m.to_bytes = m := by
  obtain ⟨bc, us, unk, q0, q1, q2, q3, sig⟩ := m
  obtain ⟨h1, h2, h3, h4, h5, h6, h7, h8⟩ := h
  have n0 := MbrPart.encode_length q0 h5
  have n1 := MbrPart.encode_length q1 h6
  have n2 := MbrPart.encode_length q2 h7
  have n3 := MbrPart.encode_length q3 h8
  set enc := ProtectiveMbr.to_bytes ⟨bc, us, unk, q0, q1, q2, q3, sig⟩ with henc
  have hassoc : enc = bc ++ (us ++ (unk ++ (q0.encode ++ (q1.encode ++
      (q2.encode ++ (q3.encode ++ sig)))))) := by
    rw [henc]; simp [ProtectiveMbr.to_bytes]
  have D0 : enc.drop 440 = us ++ (unk ++ (q0.encode ++ (q1.encode ++
      (q2.encode ++ (q3.encode ++ sig))))) := by
    rw [hassoc]; exact List.drop_left' h1
  have D1 := drop_step enc us _ 440 4 444 D0 h2 (by norm_num)
  have D2 := drop_step enc unk _ 444 2 446 D1 h3 (by norm_num)
  have D3 := drop_step enc q0.encode _ 446 16 462 D2 n0 (by norm_num)
  have D4 := drop_step enc q1.encode _ 462 16 478 D3 n1 (by norm_num)
  have D5 := drop_step enc q2.encode _ 478 16 494 D4 n2 (by norm_num)
  have D6 := drop_step enc q3.encode _ 494 16 510 D5 n3 (by norm_num)
  show ProtectiveMbr.decodeRaw enc = _
  simp only [ProtectiveMbr.decodeRaw, sub, ProtectiveMbr.mk.injEq]
  refine ⟨?_, ?_, ?_, ?_, ?_, ?_, ?_, ?_⟩
  · rw [hassoc]; exact List.take_left' h1
  · rw [D0]; exact List.take_left' h2
  · rw [D1]; exact List.take_left' h3
  · rw [D2, List.take_left' n0]; exact MbrPart.decode_encode q0 h5
  · rw [D3, List.take_left' n1]; exact MbrPart.decode_encode q1 h6
  · rw [D4, List.take_left' n2]; exact MbrPart.decode_encode q2 h7
  · rw [D5, List.take_left' n3]; exact MbrPart.decode_encode q3 h8
  · rw [D6]; exact List.take_of_length_le h4.le


theorem leBytes_four (v : Nat) :
    leBytes 4 v = [v % 256, v / 256 % 256, v / 65536 % 256, v / 16777216 % 256] := by
  have h4 : List.range 4 = [0, 1, 2, 3] := by decide
  simp [leBytes, h4]

theorem leBytes4_ne_zero (v : Nat) (hle : v ≤ 0xFFFFFFFF) (h : v ≠ 0) :
    leBytes 4 v ≠ leBytes 4 0 := by
  rw [leBytes_four, leBytes_four]
  intro hc
  simp only [List.cons.injEq, Nat.zero_mod, Nat.zero_div, and_true] at hc
  omega

theorem ProtectiveMbr.new_WF (l : Nat) : (ProtectiveMbr.new l).WF := by
  refine ⟨?_, ?_, ?_, ?_, ?_, ?_, ?_, ?_⟩ <;>
    simp [ProtectiveMbr.new, MbrPart.WF, MbrPart.default, leBytes_length]

/-- `ProtectiveMbr::new(last_lba)` validates whenever `last_lba ≥ 1`
(at `last_lba = 0` the `size_lba == 0` check fires). -/
theorem ProtectiveMbr.validate_new (l : Nat) (hl : 1 ≤ l) :
    (ProtectiveMbr.new l).validate = .ok () := by
  have hv : (if l ≤ 0xFFFFFFFF then l else 0xFFFFFFFF) ≠ 0 := by split <;> omega
  have hv2 : (if l ≤ 0xFFFFFFFF then l else 0xFFFFFFFF) ≤ 0xFFFFFFFF := by split <;> omega
  have hne := leBytes4_ne_zero _ hv2 hv
  simp [ProtectiveMbr.validate, ProtectiveMbr.new, MbrPart.default, hne]

/-- A validated, well-formed MBR survives `to_bytes` then `from_bytes`. -/
theorem ProtectiveMbr.from_bytes_to_bytes (m : ProtectiveMbr) (hwf : m.WF)
    (hval : m.validate = .ok ()) :
    ProtectiveMbr.from_bytes m.to_bytes = .ok m := by
  unfold ProtectiveMbr.from_bytes
  rw [ProtectiveMbr.decode_encode_full m hwf, hval]

/-- Re-serialising any 512-byte sector accepted by `from_bytes`
reproduces it byte-for-byte. -/
theorem ProtectiveMbr.to_bytes_from_bytes (b : List Nat) (m : ProtectiveMbr)
    (h512 : b.length = 512) (h : ProtectiveMbr.from_bytes b = .ok m) :
    m.to_bytes = b := by
  unfold ProtectiveMbr.from_bytes at h
  rcases hv : (ProtectiveMbr.decodeRaw b).validate with e | u
  · rw [hv] at h; exact absurd h (by simp)
  · rw [hv] at h
    simp only [Except.ok.injEq] at h
    rw [← h]
    exact ProtectiveMbr.encode_decode_full b h512

theorem mbrWithChs_WF (last : Nat) (sc ec : List Nat) (h1 : sc.length = 3)
    (h2 : ec.length = 3) : (mbrWithChs last sc ec).WF := by
  refine ⟨?_, ?_, ?_, ?_, ?_, ?_, ?_, ?_⟩ <;>
    simp [mbrWithChs, ProtectiveMbr.new, MbrPart.WF, MbrPart.default,
      leBytes_length, h1, h2]

/-- The strict codec rejects any CHS deviation from the canonical
values. -/
theorem mbrWithChs_validate_err (last : Nat) (sc ec : List Nat)
    (hne : sc ≠ [0x00, 0x02, 0x00] ∨ ec ≠ [0xFF, 0xFF, 0xFF]) :
    (mbrWithChs last sc ec).validate = .error (.Mbr .invalidProtectiveMbr) := by
  by_cases hsc : sc = [0x00, 0x02, 0x00]
  · have hec : ec ≠ [0xFF, 0xFF, 0xFF] := by
      rcases hne with h | h
      · exact absurd hsc h
      · exact h
    simp [ProtectiveMbr.validate, mbrWithChs, ProtectiveMbr.new, hsc, hec]
  · simp [ProtectiveMbr.validate, mbrWithChs, ProtectiveMbr.new, hsc]

/-- The draft reader accepts the canonical MBR under *any* CHS bytes. -/
theorem newMbrRead_withChs (last : Nat) (sc ec : List Nat) (h1 : sc.length = 3)
    (h2 : ec.length = 3) :
    newMbrRead (mbrWithChs last sc ec).to_bytes = .ok (mbrWithChs last sc ec) := by
  unfold newMbrRead
  rw [ProtectiveMbr.decode_encode_full _ (mbrWithChs_WF last sc ec h1 h2)]
  simp [newMbrChecks, newMbrOsTypeCheck, mbrWithChs, ProtectiveMbr.new, MbrPart.default]

/-! ## Claim C7 -/

/-- C7 counterexample: the Protective MBR that GNU parted writes —
canonical in every field except the CHS bytes — is *rejected* by the
retained codec `ProtectiveMbr::from_bytes` (src/src/mbr.rs), with the
`InvalidMbr`-kind error, rather than accepted. -/
theorem chs_mismatch_rejected_by_retained_codec :
    ProtectiveMbr.from_bytes mbrParted.to_bytes = .error (.Mbr .invalidProtectiveMbr) := by
  decide

/-- C7 (amended): CHS tolerance is split across the two MBR readers in
the source.  The retained codec (src/src/mbr.rs), the one `Gpt` reads
through, rejects every CHS deviation as "Invalid Protective MBR"; only
the draft reader in src/src/new/mbr.rs tolerates arbitrary start/end CHS
bytes (it never examines them), accepting the canonical pattern under
any CHS values. -/
theorem chs_tolerance :
    (∀ last : Nat, ∀ sc ec : List Nat, sc.length = 3 → ec.length = 3 →
      sc ≠ [0x00, 0x02, 0x00] ∨ ec ≠ [0xFF, 0xFF, 0xFF] →
      ProtectiveMbr.from_bytes (mbrWithChs last sc ec).to_bytes
        = .error (.Mbr .invalidProtectiveMbr)) ∧
    (∀ last : Nat, ∀ sc ec : List Nat, sc.length = 3 → ec.length = 3 →
      newMbrRead (mbrWithChs last sc ec).to_bytes = .ok (mbrWithChs last sc ec)) := by
  constructor
  · intro last sc ec h1 h2 hne
    unfold ProtectiveMbr.from_bytes
    rw [ProtectiveMbr.decode_encode_full _ (mbrWithChs_WF last sc ec h1 h2),
      mbrWithChs_validate_err last sc ec hne]
  · intro last sc ec h1 h2
    exact newMbrRead_withChs last sc ec h1 h2

/-- C7 witness: the parted CHS values, on the 10 MiB geometry. -/
theorem chs_tolerance_inst :
    ProtectiveMbr.from_bytes (mbrWithChs 20479 [0, 1, 0] [254, 255, 255]).to_bytes
      = .error (.Mbr .invalidProtectiveMbr) ∧
    newMbrRead (mbrWithChs 20479 [0, 1, 0] [254, 255, 255]).to_bytes
      = .ok (mbrWithChs 20479 [0, 1, 0] [254, 255, 255]) :=
  ⟨chs_tolerance.1 20479 [0, 1, 0] [254, 255, 255] (by decide) (by decide) (by decide),
   chs_tolerance.2 20479 [0, 1, 0] [254, 255, 255] (by decide) (by decide)⟩

/-! ## Claim C9 -/

/-- C9 counterexample: `ProtectiveMbr::new(0)` (a one-block device) does
*not* round-trip: its `size_lba` field is zero, so `from_bytes` rejects
its own serialisation — the claim's "every m = ProtectiveMbr::new(last_lba)"
fails at `last_lba = 0`. -/
theorem mbr_new_zero_roundtrip_fails :
    ProtectiveMbr.from_bytes (ProtectiveMbr.new 0).to_bytes
      = .error (.Mbr .invalidProtectiveMbr) := by
  decide

/-- C9 (amended): the MBR round-trip law, restricted to `last_lba ≥ 1`
for constructed MBRs.  (1) Every well-formed value accepted by
validation survives `to_bytes` then `from_bytes` unchanged; (2) every
`ProtectiveMbr::new(last_lba)` with `last_lba ≥ 1` does too; (3) any
512-byte sector accepted by `from_bytes` is reproduced byte-for-byte by
re-serialising the parsed value. -/
theorem mbr_round_trip :
    (∀ m : ProtectiveMbr, m.WF → m.validate = .ok () →
      ProtectiveMbr.from_bytes m.to_bytes = .ok m) ∧
    (∀ l : Nat, 1 ≤ l →
      ProtectiveMbr.from_bytes (ProtectiveMbr.new l).to_bytes = .ok (ProtectiveMbr.new l)) ∧
    (∀ b : List Nat, ∀ m : ProtectiveMbr, b.length = 512 →
      ProtectiveMbr.from_bytes b = .ok m → m.to_bytes = b) := by
  refine ⟨?_, ?_, ?_⟩
  · exact fun m hwf hval => ProtectiveMbr.from_bytes_to_bytes m hwf hval
  · intro l hl
    exact ProtectiveMbr.from_bytes_to_bytes (ProtectiveMbr.new l)
      (ProtectiveMbr.new_WF l) (ProtectiveMbr.validate_new l hl)
  · exact fun b m h512 h => ProtectiveMbr.to_bytes_from_bytes b m h512 h

/-- C9 witness: the 10 MiB geometry MBR round-trips in both directions. -/
theorem mbr_round_trip_inst :
    ProtectiveMbr.from_bytes (ProtectiveMbr.new 20479).to_bytes = .ok (ProtectiveMbr.new 20479) ∧
    (ProtectiveMbr.new 20479).to_bytes.length = 512 :=
  ⟨mbr_round_trip.2.1 20479 (by decide),
   ProtectiveMbr.to_bytes_length _ (ProtectiveMbr.new_WF 20479)⟩

/-! ## Claim C1 -/

/-- C1 (code bug): `check_overlap` only tests whether the *new*
partition's start lies inside an existing partition, so a partition that
starts before an existing one and ends after it is accepted.  Starting
from the empty table, adding LBAs 10..20 and then LBAs 5..30 both
succeed, and the resulting table's used view holds a pair violating the
claimed invariant (each start ≤ the other's end, in LBAs with 512-byte
blocks). -/
theorem overlap_check_one_sided :
    gEmpty4.add_partition pOv1 = .ok gC1mid ∧
    gC1mid.add_partition pOv2 = .ok gC1end ∧
    gC1end.partitionsView = [pOv2, pOv1] ∧
    pOv1 ≠ pOv2 ∧
    pOv2.start / 512 ≤ pOv1.end_ / 512 ∧ pOv1.start / 512 ≤ pOv2.end_ / 512 := by
  decide

/-! ## Claim C3 -/

/-- C3 (code bug): removing index 0 from a two-partition table leaves a
view holding exactly the unused sentinel: the slot is overwritten with
`Partition::new()`, the length is decremented, and the sort then runs
over the *shorter* prefix, so the surviving partition `qB` is pushed out
of the view and the sentinel stays in it. -/
theorem remove_partition_corrupts_view :
    gC3.remove_partition 0 = .ok gC3res ∧
    gC3res.partitionsView = [Partition.new] ∧
    qB ∉ gC3res.partitionsView := by
  decide


/-! ## Claim C5 (counterexample part) -/

/-- C5 counterexample: `add_partition` takes no geometry and performs no
range validation: adding a partition whose start LBA (1000000000) lies
far beyond the last usable LBA of the 10 MiB geometry succeeds instead
of failing with an out-of-range error. -/
theorem add_partition_skips_range_check :
    gOOR.add_partition pFar = .ok gOORres ∧
    (Header.new 1 20479 1 0 uuidZ 512 10485760).last_usable < pFar.start / 512 ∧
    (Header.new 1 20479 1 0 uuidZ 512 10485760).first_usable = 2048 := by
  decide

/-! ## Claim C6 -/

/-- C6 counterexample: on a full fixed-capacity table (capacity 1, one
used slot) `add_partition` with a non-overlapping partition panics via
out-of-bounds indexing — it does not return an error value of any
kind. -/
theorem add_partition_full_table_panics :
    gFull.check_overlap qB = .ok () ∧ gFull.add_partition qB = .panicked := by
  decide

/-- C6 (amended): on the fixed-capacity `Gpt`, `add_partition` with all
slots used panics (out-of-bounds slot write) after the overlap check
passes; on the `ArrayVec`-backed `_GptC`, the failed `try_push` is
mapped to the `Overlap` error (not a capacity kind), and the table is
returned unchanged by construction since nothing was mutated before the
push. -/
theorem add_partition_capacity (g : Gpt) (gav : GptAV) (p q : Partition)
    (hfull : g.partitions.length ≤ g.partitions_len)
    (hov : g.check_overlap p = .ok ())
    (hfull2 : gav.cap ≤ gav.partitions.length)
    (hov2 : GptC.check_overlap gav.partitions q = .ok ()) :
    g.add_partition p = .panicked ∧ gav.add_partition q = .error .Overlap := by
  constructor
  · unfold Gpt.add_partition
    rw [hov]
    have hm : min g.partitions_len g.partitions.length = g.partitions.length :=
      Nat.min_eq_right hfull
    simp [hm]
  · unfold GptAV.add_partition
    rw [hov2]
    simp [Nat.not_lt.mpr hfull2]

/-- C6 witness: capacity-1 tables with one used entry. -/
theorem add_partition_capacity_inst :
    gFull.add_partition qB = .panicked ∧ gavFull.add_partition qB = .error .Overlap :=
  add_partition_capacity gFull gavFull qB qB (by decide) (by decide) (by decide) (by decide)

/-! ## Claim C8 -/

/-- C8 counterexample: with 256 partition entries of 128 bytes
(32768 > 16384 bytes) on 512-byte blocks, the claim's
`array_blocks = ceil(max(16384, 256·128)/512) = 64` predicts
`first_usable_lba = 66` under Minimal alignment, but `Header::new`
ignores the partition count and computes `16384/512 = 32` blocks, giving
`first_usable_lba = 34`. -/
theorem header_geometry_ignores_count :
    (NewHeader.new .Primary .Minimal 0 256 uuidZ 10485760 512).first_usable_lba = 34 ∧
    (max 16384 (256 * 128) + 512 - 1) / 512 + 2 = 66 ∧ (34 : Nat) ≠ 66 := by
  decide

/-- C8 (amended): `Header::new` reserves `MIN_PARTITION_BYTES /
block_size` array blocks — independent of `partitions_count` and of the
entry size.  With that formula the claimed relations hold:
`last_usable_lba = LastLBA − array_blocks − 1` (stated additively, the
subtractions being exact under the geometry hypothesis) and
`first_usable_lba` is 2048 under Optimal alignment or `array_blocks + 2`
under Minimal. -/
theorem header_geometry (kind : HeaderKind) (align : Align) (crc count count' : Nat)
    (guid : List Nat) (ds bs : Nat)
    (hgeom : MIN_PARTITIONS_BYTES / bs + 2 ≤ ds / bs) :
    (NewHeader.new kind align crc count guid ds bs).last_usable_lba
        + MIN_PARTITIONS_BYTES / bs + 2 = ds / bs ∧
    (NewHeader.new kind align crc count guid ds bs).first_usable_lba
        = (match align with
           | .Optimal => 2048
           | .Minimal => MIN_PARTITIONS_BYTES / bs + 2) ∧
    (NewHeader.new kind align crc count guid ds bs).last_usable_lba
        = (NewHeader.new kind align crc count' guid ds bs).last_usable_lba ∧
    (NewHeader.new kind align crc count guid ds bs).first_usable_lba
        = (NewHeader.new kind align crc count' guid ds bs).first_usable_lba := by
  refine ⟨?_, ?_, rfl, rfl⟩
  · simp only [NewHeader.new]
    omega
  · cases align <;> simp [NewHeader.new]

/-- C8 witness: Backup/Minimal on the 10 MiB geometry, counts 1 and 7. -/
theorem header_geometry_inst :
    MIN_PARTITIONS_BYTES / 512 + 2 ≤ 10485760 / 512 ∧
    (NewHeader.new .Backup .Minimal 0 1 uuidZ 10485760 512).last_usable_lba
        + MIN_PARTITIONS_BYTES / 512 + 2 = 10485760 / 512 ∧
    (NewHeader.new .Backup .Minimal 0 1 uuidZ 10485760 512).last_usable_lba
        = (NewHeader.new .Backup .Minimal 0 7 uuidZ 10485760 512).last_usable_lba :=
  ⟨by decide,
   (header_geometry .Backup .Minimal 0 1 7 uuidZ 10485760 512 (by decide)).1,
   (header_geometry .Backup .Minimal 0 1 7 uuidZ 10485760 512 (by decide)).2.2.1⟩

/-! ## Claim C2 -/

theorem enum_map_fst_fun {α β : Type} (l : List α) (h : Nat → β) :
    l.enum.map (fun c => h c.1) = (List.range l.length).map h := by
  rw [show (fun c : Nat × α => h c.1) = h ∘ Prod.fst from rfl, ← List.map_map,
    List.enum_map_fst]

/-- The offsets of the per-slot writes of `write_header_array`. -/
theorem enum_map_offset {α : Type} (l : List α) (a b : Nat) (f : α → List Nat) :
    List.map (Prod.fst ∘ fun c : Nat × α => (a + b * c.1, f c.2)) l.enum
      = List.map (fun i => a + b * i) (List.range l.length) := by
  have hcomp : (Prod.fst ∘ fun c : Nat × α => (a + b * c.1, f c.2))
      = (fun c : Nat × α => a + b * c.1) := rfl
  rw [hcomp]
  exact enum_map_fst_fun l (fun i => a + b * i)

/-- C2 counterexample: for a one-partition table on the 10 MiB geometry
the write callback receives, in order, offsets 0 (MBR), 20479·512
(backup *header*), 20447·512 (backup array), 512 (primary *header*),
1024 (primary array) — each header is written *before* its array, not
after it as the claim states (which would be the offset order
[0, 20447·512, 20479·512, 1024, 512]). -/
theorem write_order_headers_first :
    (gW.to_bytes_with_size 512 10485760).2.map Prod.fst
      = [0, 10485248, 10468864, 512, 1024] ∧
    ([0, 10485248, 10468864, 512, 1024] : List Nat)
      ≠ [0, 10468864, 10485248, 1024, 512] := by
  decide

/-- C2 (amended): a successful `to_bytes_with_size` emits exactly, in
order: the Protective MBR at offset 0, the *backup header* at
`LastLBA·block_size`, the backup partition array at
`(last_usable_lba+1)·block_size`, the *primary header* at
`1·block_size`, and the primary partition array at `2·block_size` —
each header precedes its partition array (as the method's own doc
comment in src/src/gpt.rs lines 594-602 says).  Stated on the write
offsets; every slot of the fixed array is written, at consecutive
128-byte offsets. -/
theorem write_order (g : Gpt) (bs ds : Nat)
    (hok : (g.to_bytes_with_size bs ds).1 = .ok ())
    (hlast : ds / bs - 1 ≠ 1) :
    (g.to_bytes_with_size bs ds).2.map Prod.fst =
      0 :: (((ds / bs - 1) * bs) ::
        (List.range g.partitions.length).map
          (fun i => ((ds / bs - 1) - MIN_PARTITIONS_BYTES / bs - 1 + 1) * bs
            + PARTITION_ENTRY_SIZE * i)) ++
      (bs :: (List.range g.partitions.length).map
          (fun i => 2 * bs + PARTITION_ENTRY_SIZE * i)) := by
  simp only [Gpt.to_bytes_with_size] at hok ⊢
  split at hok
  · simp at hok
  · rename_i hc
    rw [if_neg hc]
    simp only [Gpt.write_header_array, Header.new, hlast, if_false, if_true,
      List.map_cons, List.map_append, List.map_map]
    rw [enum_map_offset g.partitions
        ((ds / bs - 1 - MIN_PARTITIONS_BYTES / bs - 1 + 1) * bs) PARTITION_ENTRY_SIZE
        (fun p => p.to_bytes bs),
      enum_map_offset g.partitions (2 * bs) PARTITION_ENTRY_SIZE (fun p => p.to_bytes bs)]
    simp [Nat.one_mul]

/-- C2 witness: the one-partition 10 MiB table. -/
theorem write_order_inst :
    (gW.to_bytes_with_size 512 10485760).1 = .ok () ∧
    (gW.to_bytes_with_size 512 10485760).2.map Prod.fst =
      0 :: (((10485760 / 512 - 1) * 512) ::
        (List.range gW.partitions.length).map
          (fun i => ((10485760 / 512 - 1) - MIN_PARTITIONS_BYTES / 512 - 1 + 1) * 512
            + PARTITION_ENTRY_SIZE * i)) ++
      (512 :: (List.range gW.partitions.length).map
          (fun i => 2 * 512 + PARTITION_ENTRY_SIZE * i)) :=
  ⟨by decide, write_order gW 512 10485760 (by decide) (by decide)⟩

/-! ## Inversion lemmas for the read path -/

theorem validate_ok_inv (p a : Header) (func : ReadFn) (bs ds : Nat)
    (calls : List (Nat × List Nat)) (h : validate p a func bs ds = .ok calls) :
    p.this_lba = 1 ∧
    (calculate_part_crc func p.partitions (p.array * bs)).1 = p.partitions_crc32 ∧
    p.alt_lba = ds / bs - 1 ∧ a.this_lba = ds / bs - 1 ∧ a.alt_lba = 1 ∧
    (calculate_part_crc func a.partitions (a.array * bs)).1 = a.partitions_crc32 ∧
    calls = partCalls func p.partitions (p.array * bs)
      ++ partCalls func a.partitions (a.array * bs) := by
  unfold validate at h
  split_ifs at h with h1 h2 h3 h4 h5 h6
  injection h with hc
  exact ⟨not_ne_iff.mp h1, not_ne_iff.mp h2, not_ne_iff.mp h3, not_ne_iff.mp h4,
    not_ne_iff.mp h5, not_ne_iff.mp h6, hc.symm⟩

theorem Gpt.from_bytes_ok_inv (N : Nat) (pB aB : List Nat) (func : ReadFn)
    (bs ds : Nat) (g : Gpt) (hp ha : Header)
    (hhp : Header.from_bytes (pB.drop 512) bs = .ok hp)
    (hha : Header.from_bytes aB bs = .ok ha)
    (h : Gpt.from_bytes_with_size N pB aB func bs ds = .ok g) :
    ∃ calls, validate hp ha func bs ds = .ok calls ∧
      g = { uuid := hp.uuid
            partitions := calls.foldl (gptReadStep bs) (List.replicate N Partition.new)
            partitions_len :=
              (calls.foldl (gptReadStep bs) (List.replicate N Partition.new)).countP
                fun q => decide (q ≠ Partition.new) } := by
  unfold Gpt.from_bytes_with_size at h
  rcases hm : ProtectiveMbr.from_bytes (pB.take 512) with e | mbr
  · simp only [hm] at h
    exact Except.noConfusion h
  · simp only [hm, hhp, hha] at h
    rcases hv : validate hp ha func bs ds with e2 | calls
    · simp only [hv] at h
      exact Except.noConfusion h
    · simp only [hv, Except.ok.injEq] at h
      exact ⟨calls, rfl, h.symm⟩

theorem GptC.from_bytes_ok_inv_c (pB aB : List Nat) (func : ReadFn)
    (bs ds : Nat) (gc : GptC) (hp ha : Header)
    (hhp : Header.from_bytes (pB.drop 512) bs = .ok hp)
    (hha : Header.from_bytes aB bs = .ok ha)
    (h : GptC.from_bytes_with_func pB aB func bs ds = .ok gc) :
    ∃ calls, validate hp ha func bs ds = .ok calls ∧
      gc = { uuid := hp.uuid
             partitions := calls.map fun c => Partition.from_bytes c.2 bs } := by
  unfold GptC.from_bytes_with_func at h
  rcases hm : ProtectiveMbr.from_bytes (pB.take 512) with e | mbr
  · simp only [hm] at h
    exact Except.noConfusion h
  · simp only [hm, hhp, hha] at h
    rcases hv : validate hp ha func bs ds with e2 | calls
    · simp only [hv] at h
      exact Except.noConfusion h
    · simp only [hv, Except.ok.injEq] at h
      exact ⟨calls, rfl, h.symm⟩

theorem gptReadStep_length (bs : Nat) (arr : List Partition) (c : Nat × List Nat) :
    (gptReadStep bs arr c).length = arr.length := by
  unfold gptReadStep; split <;> simp

theorem foldl_gptReadStep_length (bs : Nat) (l : List (Nat × List Nat))
    (arr : List Partition) : (l.foldl (gptReadStep bs) arr).length = arr.length := by
  induction l generalizing arr with
  | nil => rfl
  | cons c t ih => rw [List.foldl_cons, ih, gptReadStep_length]

/-- Folding the callback steps of one array pass writes slot `i` with
the decoding of entry `i`, for every in-bounds `i` covered by the
pass. -/
theorem foldl_partCalls_getElem (bs : Nat) (f : Nat → List Nat) :
    ∀ (n : Nat) (arr : List Partition) (i : Nat), i < n → i < arr.length →
      (((List.range n).map fun j => (j, f j)).foldl (gptReadStep bs) arr)[i]?
        = some (Partition.from_bytes (f i) bs) := by
  intro n
  induction n with
  | zero => intro arr i h _; omega
  | succ n ih =>
    intro arr i hin hia
    rw [List.range_succ, List.map_append, List.foldl_append]
    simp only [List.map_cons, List.map_nil, List.foldl_cons, List.foldl_nil]
    set A := ((List.range n).map fun j => (j, f j)).foldl (gptReadStep bs) arr with hA
    have hAlen : A.length = arr.length := foldl_gptReadStep_length bs _ arr
    have hstep : gptReadStep bs A (n, f n)
        = if n < A.length then A.set n (Partition.from_bytes (f n) bs) else A := rfl
    rw [hstep]
    by_cases hi : i = n
    · subst hi
      rw [if_pos (by omega)]
      exact List.getElem?_set_self (by omega)
    · split
      · rw [List.getElem?_set_ne (show (n : Nat) ≠ i from fun hq => hi hq.symm)]
        exact ih arr i (by omega) hia
      · exact ih arr i (by omega) hia

/-! ## Little-endian codec and CRC bound lemmas -/

theorem readLE_cons (b : Nat) (t : List Nat) : readLE (b :: t) = readLE t * 256 + b := rfl

theorem leBytes_succ (n v : Nat) : leBytes (n + 1) v = v % 256 :: leBytes n (v / 256) := by
  unfold leBytes
  rw [List.range_succ_eq_map, List.map_cons, List.map_map]
  norm_num
  intro i _
  rw [Nat.div_div_eq_div_mul, pow_succ, Nat.mul_comm (256 ^ i) 256]

theorem readLE_leBytes (n v : Nat) (h : v < 256 ^ n) : readLE (leBytes n v) = v := by
  induction n generalizing v with
  | zero =>
    interval_cases v
    rfl
  | succ n ih =>
    rw [leBytes_succ, readLE_cons, ih (v / 256) (by
      rw [Nat.div_lt_iff_lt_mul (by norm_num : 0 < 256)]
      calc v < 256 ^ (n + 1) := h
        _ = 256 ^ n * 256 := pow_succ 256 n)]
    omega

theorem exists_sixteen (l : List Nat) (h : l.length = 16) :
    ∃ a₀ a₁ a₂ a₃ a₄ a₅ a₆ a₇ a₈ a₉ b₀ b₁ b₂ b₃ b₄ b₅,
      l = [a₀, a₁, a₂, a₃, a₄, a₅, a₆, a₇, a₈, a₉, b₀, b₁, b₂, b₃, b₄, b₅] := by
  obtain ⟨a₀, a₁, a₂, a₃, he1⟩ := length_eq_four.mp
    (show (l.take 4).length = 4 by simp [h])
  obtain ⟨a₄, a₅, a₆, a₇, he2⟩ := length_eq_four.mp (sub_length l 4 4 (by omega))
  obtain ⟨a₈, a₉, b₀, b₁, he3⟩ := length_eq_four.mp (sub_length l 8 4 (by omega))
  obtain ⟨b₂, b₃, b₄, b₅, he4⟩ := length_eq_four.mp (sub_length l 12 4 (by omega))
  have h16 : l.drop 16 = [] := List.length_eq_zero.mp (by simp [h])
  have e12 := sub_step l 12 4 16 (by norm_num)
  have e8 := sub_step l 8 4 12 (by norm_num)
  have e4 := sub_step l 4 4 8 (by norm_num)
  have hl : l = l.take 4 ++ (sub l 4 4 ++ (sub l 8 4 ++ (sub l 12 4 ++ l.drop 16))) := by
    rw [e12, e8, e4, List.take_append_drop]
  rw [he1, he2, he3, he4, h16] at hl
  exact ⟨a₀, a₁, a₂, a₃, a₄, a₅, a₆, a₇, a₈, a₉, b₀, b₁, b₂, b₃, b₄, b₅, by rw [hl]; rfl⟩

theorem swapME_swapME (l : List Nat) (h : l.length = 16) : swapME (swapME l) = l := by
  obtain ⟨a₀, a₁, a₂, a₃, a₄, a₅, a₆, a₇, a₈, a₉, b₀, b₁, b₂, b₃, b₄, b₅, rfl⟩ :=
    exists_sixteen l h
  rfl

theorem swapME_length (l : List Nat) (h : l.length = 16) : (swapME l).length = 16 := by
  obtain ⟨a₀, a₁, a₂, a₃, a₄, a₅, a₆, a₇, a₈, a₉, b₀, b₁, b₂, b₃, b₄, b₅, rfl⟩ :=
    exists_sixteen l h
  rfl

theorem crcBitStep_lt (c : Nat) (h : c < 2 ^ 32) : crcBitStep c < 2 ^ 32 := by
  unfold crcBitStep crcPoly
  split
  · exact Nat.xor_lt_two_pow (by omega) (by norm_num)
  · omega

theorem iterate_crcBitStep_lt (k : Nat) : ∀ c, c < 2 ^ 32 → (crcBitStep)^[k] c < 2 ^ 32 := by
  induction k with
  | zero => intro c h; simpa using h
  | succ k ih =>
    intro c h
    rw [Function.iterate_succ_apply]
    exact ih _ (crcBitStep_lt c h)

theorem crcByteStep_lt (c b : Nat) (h : c < 2 ^ 32) : crcByteStep c b < 2 ^ 32 :=
  iterate_crcBitStep_lt 8 _ (Nat.xor_lt_two_pow h (by omega))

theorem crcAppend_lt (l : List Nat) : ∀ c, c < 2 ^ 32 → crcAppend c l < 2 ^ 32 := by
  induction l with
  | nil => intro c h; exact h
  | cons b t ih =>
    intro c h
    simp only [crcAppend, List.foldl_cons]
    exact ih _ (crcByteStep_lt c b h)

theorem crc32_lt (l : List Nat) : crc32 l < 2 ^ 32 := by
  unfold crc32
  exact Nat.xor_lt_two_pow (crcAppend_lt l _ (by norm_num)) (by norm_num)

/-- The modelled header codec round-trips: parsing the serialisation of
a well-formed header (padded arbitrarily, e.g. to the block size)
returns exactly the original header. -/
theorem Header.from_bytes_to_bytes_hdr (h : Header) (pad : List Nat) (bs : Nat)
    (hwf : h.WF) (hbs : HEADER_SIZE ≤ bs) :
    Header.from_bytes (h.to_bytes ++ pad) bs = .ok h := by
  obtain ⟨hu, ht, hal, hfu, hlu, har, hpc, hps, hpw, hcrc⟩ := hwf
  have b64 : (256 : Nat) ^ 8 = 2 ^ 64 := by norm_num
  have b32 : (256 : Nat) ^ 4 = 2 ^ 32 := by norm_num
  have hsw := swapME_length h.uuid hu
  set c := crc32 (Header.baseBytes h 0) with hc
  set b := h.to_bytes ++ pad with hbdef
  have hb : b = SIGNATURE ++ (leBytes 4 0x10000 ++ (leBytes 4 HEADER_SIZE ++ (leBytes 4 c ++
      (leBytes 4 0 ++ (leBytes 8 h.this_lba ++ (leBytes 8 h.alt_lba ++
      (leBytes 8 h.first_usable ++ (leBytes 8 h.last_usable ++ (swapME h.uuid ++
      (leBytes 8 h.array ++ (leBytes 4 h.partitions ++ (leBytes 4 h.partition_size ++
      (leBytes 4 h.partitions_crc32 ++ pad))))))))))))) := by
    rw [hbdef, Header.to_bytes, ← hc]
    simp [Header.baseBytes, List.append_assoc]
  have D8 : b.drop 8 = leBytes 4 0x10000 ++ (leBytes 4 HEADER_SIZE ++ (leBytes 4 c ++
      (leBytes 4 0 ++ (leBytes 8 h.this_lba ++ (leBytes 8 h.alt_lba ++
      (leBytes 8 h.first_usable ++ (leBytes 8 h.last_usable ++ (swapME h.uuid ++
      (leBytes 8 h.array ++ (leBytes 4 h.partitions ++ (leBytes 4 h.partition_size ++
      (leBytes 4 h.partitions_crc32 ++ pad)))))))))))) := by
    rw [hb]; exact List.drop_left' (by decide)
  have D12 := drop_step b (leBytes 4 0x10000) _ 8 4 12 D8 (leBytes_length 4 _) (by norm_num)
  have D16 := drop_step b (leBytes 4 HEADER_SIZE) _ 12 4 16 D12 (leBytes_length 4 _) (by norm_num)
  have D20 := drop_step b (leBytes 4 c) _ 16 4 20 D16 (leBytes_length 4 _) (by norm_num)
  have D24 := drop_step b (leBytes 4 0) _ 20 4 24 D20 (leBytes_length 4 _) (by norm_num)
  have D32 := drop_step b (leBytes 8 h.this_lba) _ 24 8 32 D24 (leBytes_length 8 _) (by norm_num)
  have D40 := drop_step b (leBytes 8 h.alt_lba) _ 32 8 40 D32 (leBytes_length 8 _) (by norm_num)
  have D48 := drop_step b (leBytes 8 h.first_usable) _ 40 8 48 D40 (leBytes_length 8 _) (by norm_num)
  have D56 := drop_step b (leBytes 8 h.last_usable) _ 48 8 56 D48 (leBytes_length 8 _) (by norm_num)
  have D72 := drop_step b (swapME h.uuid) _ 56 16 72 D56 hsw (by norm_num)
  have D80 := drop_step b (leBytes 8 h.array) _ 72 8 80 D72 (leBytes_length 8 _) (by norm_num)
  have D84 := drop_step b (leBytes 4 h.partitions) _ 80 4 84 D80 (leBytes_length 4 _) (by norm_num)
  have D88 := drop_step b (leBytes 4 h.partition_size) _ 84 4 88 D84 (leBytes_length 4 _) (by norm_num)
  have F0 : sub b 0 8 = SIGNATURE := by
    unfold sub; rw [List.drop_zero, hb]; exact List.take_left' (by decide)
  have F8 : sub b 8 4 = leBytes 4 0x10000 := by
    unfold sub; rw [D8]; exact List.take_left' (leBytes_length 4 _)
  have F12 : sub b 12 4 = leBytes 4 HEADER_SIZE := by
    unfold sub; rw [D12]; exact List.take_left' (leBytes_length 4 _)
  have F16 : sub b 16 4 = leBytes 4 c := by
    unfold sub; rw [D16]; exact List.take_left' (leBytes_length 4 _)
  have F24 : sub b 24 8 = leBytes 8 h.this_lba := by
    unfold sub; rw [D24]; exact List.take_left' (leBytes_length 8 _)
  have F32 : sub b 32 8 = leBytes 8 h.alt_lba := by
    unfold sub; rw [D32]; exact List.take_left' (leBytes_length 8 _)
  have F40 : sub b 40 8 = leBytes 8 h.first_usable := by
    unfold sub; rw [D40]; exact List.take_left' (leBytes_length 8 _)
  have F48 : sub b 48 8 = leBytes 8 h.last_usable := by
    unfold sub; rw [D48]; exact List.take_left' (leBytes_length 8 _)
  have F56 : sub b 56 16 = swapME h.uuid := by
    unfold sub; rw [D56]; exact List.take_left' hsw
  have F72 : sub b 72 8 = leBytes 8 h.array := by
    unfold sub; rw [D72]; exact List.take_left' (leBytes_length 8 _)
  have F80 : sub b 80 4 = leBytes 4 h.partitions := by
    unfold sub; rw [D80]; exact List.take_left' (leBytes_length 4 _)
  have F84 : sub b 84 4 = leBytes 4 h.partition_size := by
    unfold sub; rw [D84]; exact List.take_left' (leBytes_length 4 _)
  have F88 : sub b 88 4 = leBytes 4 h.partitions_crc32 := by
    unfold sub; rw [D88]; exact List.take_left' (leBytes_length 4 _)
  have T16 : b.take 16 = SIGNATURE ++ (leBytes 4 0x10000 ++ leBytes 4 HEADER_SIZE) := by
    have h16 : (16 : Nat) = 8 + (4 + 4) := by norm_num
    rw [h16, List.take_add, List.take_add]
    have t8 : b.take 8 = SIGNATURE := by rw [hb]; exact List.take_left' (by decide)
    have t12 : (b.drop 8).take 4 = leBytes 4 0x10000 := F8
    have t16 : ((b.drop 8).drop 4).take 4 = leBytes 4 HEADER_SIZE := by
      rw [List.drop_drop]; exact F12
    rw [t8, t12, t16]
  have S20 : sub b 20 (HEADER_SIZE - 20) =
      leBytes 4 0 ++ (leBytes 8 h.this_lba ++ (leBytes 8 h.alt_lba ++
      (leBytes 8 h.first_usable ++ (leBytes 8 h.last_usable ++ (swapME h.uuid ++
      (leBytes 8 h.array ++ (leBytes 4 h.partitions ++ (leBytes 4 h.partition_size ++
      leBytes 4 h.partitions_crc32)))))))) := by
    show (b.drop 20).take (HEADER_SIZE - 20) = _
    rw [D20]
    rw [show leBytes 4 0 ++ (leBytes 8 h.this_lba ++ (leBytes 8 h.alt_lba ++
      (leBytes 8 h.first_usable ++ (leBytes 8 h.last_usable ++ (swapME h.uuid ++
      (leBytes 8 h.array ++ (leBytes 4 h.partitions ++ (leBytes 4 h.partition_size ++
      (leBytes 4 h.partitions_crc32 ++ pad)))))))))
      = (leBytes 4 0 ++ (leBytes 8 h.this_lba ++ (leBytes 8 h.alt_lba ++
      (leBytes 8 h.first_usable ++ (leBytes 8 h.last_usable ++ (swapME h.uuid ++
      (leBytes 8 h.array ++ (leBytes 4 h.partitions ++ (leBytes 4 h.partition_size ++
      leBytes 4 h.partitions_crc32))))))))) ++ pad from by simp [List.append_assoc]]
    exact List.take_left' (by simp [leBytes_length, hsw, HEADER_SIZE])
  have HZ : b.take 16 ++ leBytes 4 0 ++ sub b 20 (HEADER_SIZE - 20) = Header.baseBytes h 0 := by
    rw [T16, S20]
    simp [Header.baseBytes, List.append_assoc]
  have r8 : readLE (leBytes 4 0x10000) = 0x10000 := readLE_leBytes 4 _ (by norm_num)
  have r12 : readLE (leBytes 4 HEADER_SIZE) = HEADER_SIZE :=
    readLE_leBytes 4 _ (by norm_num [HEADER_SIZE])
  have r16 : readLE (leBytes 4 c) = c := readLE_leBytes 4 _ (b32 ▸ crc32_lt _)
  have rT : readLE (leBytes 8 h.this_lba) = h.this_lba := readLE_leBytes 8 _ (b64 ▸ ht)
  have rA : readLE (leBytes 8 h.alt_lba) = h.alt_lba := readLE_leBytes 8 _ (b64 ▸ hal)
  have rF : readLE (leBytes 8 h.first_usable) = h.first_usable := readLE_leBytes 8 _ (b64 ▸ hfu)
  have rL : readLE (leBytes 8 h.last_usable) = h.last_usable := readLE_leBytes 8 _ (b64 ▸ hlu)
  have rAr : readLE (leBytes 8 h.array) = h.array := readLE_leBytes 8 _ (b64 ▸ har)
  have rPC : readLE (leBytes 4 h.partitions) = h.partitions := readLE_leBytes 4 _ (b32 ▸ hpc)
  have rPS : readLE (leBytes 4 h.partition_size) = h.partition_size :=
    readLE_leBytes 4 _ (b32 ▸ hps)
  have rCR : readLE (leBytes 4 h.partitions_crc32) = h.partitions_crc32 :=
    readLE_leBytes 4 _ (b32 ▸ hcrc)
  have hsz : ¬(HEADER_SIZE < HEADER_SIZE ∨ bs < HEADER_SIZE) :=
    not_or.mpr ⟨lt_irrefl _, Nat.not_lt.mpr hbs⟩
  simp only [Header.from_bytes, F0, F8, F12, F16, F24, F32, F40, F48, F56, F72, F80, F84, F88,
    r8, r12, r16, rT, rA, rF, rL, rAr, rPC, rPS, rCR, HZ, ← hc,
    swapME_swapME h.uuid hu, hpw, hsz]
  simp

/-- Introduction form of `validate`: the six checks suffice. -/
theorem validate_ok_intro (p a : Header) (func : ReadFn) (bs ds : Nat)
    (h1 : p.this_lba = 1)
    (h2 : (calculate_part_crc func p.partitions (p.array * bs)).1 = p.partitions_crc32)
    (h3 : p.alt_lba = ds / bs - 1) (h4 : a.this_lba = ds / bs - 1) (h5 : a.alt_lba = 1)
    (h6 : (calculate_part_crc func a.partitions (a.array * bs)).1 = a.partitions_crc32) :
    validate p a func bs ds = .ok (partCalls func p.partitions (p.array * bs)
      ++ partCalls func a.partitions (a.array * bs)) := by
  unfold validate
  rw [if_neg (not_ne_iff.mpr h1), if_neg (not_ne_iff.mpr h2), if_neg (not_ne_iff.mpr h3),
    if_neg (not_ne_iff.mpr h4), if_neg (not_ne_iff.mpr h5), if_neg (not_ne_iff.mpr h6)]

/-! ## Facts about the concrete images -/

theorem mbr20479_len : (ProtectiveMbr.new 20479).to_bytes.length = 512 :=
  ProtectiveMbr.to_bytes_length _ (ProtectiveMbr.new_WF 20479)

theorem hP4_WF : hP4.WF := by decide

theorem hB4_WF : hB4.WF := by decide

theorem hdr4_primary : Header.from_bytes (primaryB4.drop 512) 512 = .ok hP4 := by
  have hd : primaryB4.drop 512 = hP4.to_bytes ++ List.replicate 420 0 :=
    List.drop_left' mbr20479_len
  rw [hd]
  exact Header.from_bytes_to_bytes_hdr hP4 _ 512 hP4_WF (by norm_num [HEADER_SIZE])

theorem hdr4_alt : Header.from_bytes altB4 512 = .ok hB4 :=
  Header.from_bytes_to_bytes_hdr hB4 _ 512 hB4_WF (by norm_num [HEADER_SIZE])

theorem mbr4_ok : ProtectiveMbr.from_bytes (primaryB4.take 512)
    = .ok (ProtectiveMbr.new 20479) := by
  have ht : primaryB4.take 512 = (ProtectiveMbr.new 20479).to_bytes :=
    List.take_left' mbr20479_len
  rw [ht]
  exact ProtectiveMbr.from_bytes_to_bytes _ (ProtectiveMbr.new_WF 20479)
    (ProtectiveMbr.validate_new 20479 (by norm_num))

theorem validate4 : validate hP4 hB4 zfunc 512 10485760
    = .ok (partCalls zfunc hP4.partitions (hP4.array * 512)
      ++ partCalls zfunc hB4.partitions (hB4.array * 512)) :=
  validate_ok_intro hP4 hB4 zfunc 512 10485760 (by decide) (by decide) (by decide)
    (by decide) (by decide) (by decide)

theorem read4_ok : Gpt.from_bytes_with_size 128 primaryB4 altB4 zfunc 512 10485760
    = .ok gRead4 := by
  unfold Gpt.from_bytes_with_size
  simp only [mbr4_ok, hdr4_primary, hdr4_alt, validate4]
  decide

theorem hP10_WF : hP10.WF := by
  refine ⟨by decide, by decide, by decide, by decide, by decide, by decide, by decide,
    by decide, by decide, ?_⟩
  exact crc32_lt entryA

theorem hB10_WF : hB10.WF := by
  refine ⟨by decide, by decide, by decide, by decide, by decide, by decide, by decide,
    by decide, by decide, ?_⟩
  exact crc32_lt entryB

theorem hdr10_primary : Header.from_bytes (primaryB10.drop 512) 512 = .ok hP10 := by
  have hd : primaryB10.drop 512 = hP10.to_bytes ++ List.replicate 420 0 :=
    List.drop_left' mbr20479_len
  rw [hd]
  exact Header.from_bytes_to_bytes_hdr hP10 _ 512 hP10_WF (by norm_num [HEADER_SIZE])

theorem hdr10_alt : Header.from_bytes altB10 512 = .ok hB10 :=
  Header.from_bytes_to_bytes_hdr hB10 _ 512 hB10_WF (by norm_num [HEADER_SIZE])

theorem mbr10_ok : ProtectiveMbr.from_bytes (primaryB10.take 512)
    = .ok (ProtectiveMbr.new 20479) := by
  have ht : primaryB10.take 512 = (ProtectiveMbr.new 20479).to_bytes :=
    List.take_left' mbr20479_len
  rw [ht]
  exact ProtectiveMbr.from_bytes_to_bytes _ (ProtectiveMbr.new_WF 20479)
    (ProtectiveMbr.validate_new 20479 (by norm_num))

/-- A one-entry array pass CRCs exactly the bytes the callback returns
for entry 0. -/
theorem calc_single (func : ReadFn) (off : Nat) :
    (calculate_part_crc func 1 off).1 = crc32 (func off PARTITION_ENTRY_SIZE) := by
  unfold calculate_part_crc partCalls crc32
  have h1 : List.range 1 = [0] := rfl
  simp [h1, crcAppend]

/-- The primary-array CRC check of the C10 image passes: the callback
returns `entryA` at the primary array offset, whose CRC is what the
primary header stores (by construction). -/
theorem crcP10 : (calculate_part_crc func10 hP10.partitions (hP10.array * 512)).1
    = hP10.partitions_crc32 := by
  have e1 : hP10.partitions = 1 := rfl
  have e2 : hP10.array * 512 = 1024 := by decide
  have hfunc : func10 1024 PARTITION_ENTRY_SIZE = entryA := rfl
  have hproj : hP10.partitions_crc32 = crc32 entryA := rfl
  rw [e1, e2, calc_single func10 1024, hfunc, hproj]

theorem crcB10 : (calculate_part_crc func10 hB10.partitions (hB10.array * 512)).1
    = hB10.partitions_crc32 := by
  have e1 : hB10.partitions = 1 := rfl
  have e2 : hB10.array * 512 = 10468864 := by decide
  have hfunc : func10 10468864 PARTITION_ENTRY_SIZE = entryB := rfl
  have hproj : hB10.partitions_crc32 = crc32 entryB := rfl
  rw [e1, e2, calc_single func10 10468864, hfunc, hproj]

theorem validate10 : validate hP10 hB10 func10 512 10485760
    = .ok (partCalls func10 hP10.partitions (hP10.array * 512)
      ++ partCalls func10 hB10.partitions (hB10.array * 512)) :=
  validate_ok_intro hP10 hB10 func10 512 10485760 (by decide) crcP10 (by decide)
    (by decide) (by decide) crcB10

theorem read10_ok : Gpt.from_bytes_with_size 4 primaryB10 altB10 func10 512 10485760
    = .ok gRead10 := by
  unfold Gpt.from_bytes_with_size
  simp only [mbr10_ok, hdr10_primary, hdr10_alt, validate10]
  decide

theorem readC10_ok : GptC.from_bytes_with_func primaryB10 altB10 func10 512 10485760
    = .ok gcRead10 := by
  unfold GptC.from_bytes_with_func
  simp only [mbr10_ok, hdr10_primary, hdr10_alt, validate10]
  decide

/-! ## Claim C4 -/

/-- C4 counterexample: the primary and backup headers of this image
disagree on the disk GUID, and the primary's usable range is inverted
(`last_usable < first_usable`), yet `from_bytes_with_size` succeeds —
no `InconsistentHeaders`-style error exists and no cross-field
comparison is made. -/
theorem inconsistent_headers_accepted :
    Header.from_bytes (primaryB4.drop 512) 512 = .ok hP4 ∧
    Header.from_bytes altB4 512 = .ok hB4 ∧
    hP4.uuid ≠ hB4.uuid ∧
    hP4.last_usable < hP4.first_usable ∧
    hB4.first_usable ≤ hB4.last_usable ∧
    Gpt.from_bytes_with_size 128 primaryB4 altB4 zfunc 512 10485760 = .ok gRead4 :=
  ⟨hdr4_primary, hdr4_alt, by decide, by decide, by decide, read4_ok⟩

/-- C4 (amended): a successful read guarantees only the placement
checks of `validate` and the per-header array CRCs — the primary header
sits at LBA 1 and points at the last LBA, the backup sits at the last
LBA and points at LBA 1, and each partition array matches *its own*
header's `partitions_crc32`.  The headers' `disk_guid`,
`partitions_crc32` and usable ranges are never compared with each other
(each parse does fix the revision, so revisions agree), the in-memory
GUID is taken from the primary header, and no `InconsistentHeaders`
error kind exists in the code. -/
theorem read_cross_checks (N : Nat) (pB aB : List Nat) (func : ReadFn) (bs ds : Nat)
    (g : Gpt) (hp ha : Header)
    (hhp : Header.from_bytes (pB.drop 512) bs = .ok hp)
    (hha : Header.from_bytes aB bs = .ok ha)
    (h : Gpt.from_bytes_with_size N pB aB func bs ds = .ok g) :
    hp.this_lba = 1 ∧ hp.alt_lba = ds / bs - 1 ∧ ha.this_lba = ds / bs - 1 ∧
    ha.alt_lba = 1 ∧
    (calculate_part_crc func hp.partitions (hp.array * bs)).1 = hp.partitions_crc32 ∧
    (calculate_part_crc func ha.partitions (ha.array * bs)).1 = ha.partitions_crc32 ∧
    g.uuid = hp.uuid := by
  obtain ⟨calls, hv, rfl⟩ := Gpt.from_bytes_ok_inv N pB aB func bs ds g hp ha hhp hha h
  obtain ⟨c1, c2, c3, c4, c5, c6, _⟩ := validate_ok_inv hp ha func bs ds calls hv
  exact ⟨c1, c3, c4, c5, c2, c6, rfl⟩

/-- C4 witness: the inconsistent-header image satisfies the amended
guarantees. -/
theorem read_cross_checks_inst :
    hP4.this_lba = 1 ∧ hP4.alt_lba = 10485760 / 512 - 1 ∧
    hB4.this_lba = 10485760 / 512 - 1 ∧ hB4.alt_lba = 1 ∧
    (calculate_part_crc zfunc hP4.partitions (hP4.array * 512)).1 = hP4.partitions_crc32 ∧
    (calculate_part_crc zfunc hB4.partitions (hB4.array * 512)).1 = hB4.partitions_crc32 ∧
    gRead4.uuid = hP4.uuid :=
  read_cross_checks 128 primaryB4 altB4 zfunc 512 10485760 gRead4 hP4 hB4
    hdr4_primary hdr4_alt read4_ok

/-! ## Claim C5 (amended part) -/

/-- C5 (amended): `add_partition` performs no range validation (it
receives no geometry at all — see the counterexample); invariant I1 is
enforced only at write time: `to_bytes_with_size` fails with the
`NotEnough` error whenever some used partition lies outside the usable
range derived from the geometry. -/
theorem range_check_at_write (g : Gpt) (bs ds : Nat) (p : Partition)
    (hp : p ∈ g.partitionsView)
    (hout : p.start / bs < (Header.new (ds / bs - 1) 1 g.partitions.length 0 g.uuid bs ds).first_usable
      ∨ (Header.new (ds / bs - 1) 1 g.partitions.length 0 g.uuid bs ds).last_usable < p.end_ / bs) :
    (g.to_bytes_with_size bs ds).1 = .error .NotEnough := by
  simp only [Gpt.to_bytes_with_size]
  split
  · rfl
  · rename_i hc
    exfalso
    apply hc
    rw [List.any_eq_true]
    refine ⟨p, hp, ?_⟩
    simp only [Header.new] at hout
    simp only [Header.new, Bool.or_eq_true, decide_eq_true_eq]
    exact hout

/-- C5 witness: writing the table holding the far-out-of-range
partition fails with `NotEnough`. -/
theorem range_check_at_write_inst :
    pFar ∈ gOORres.partitionsView ∧
    (gOORres.to_bytes_with_size 512 10485760).1 = .error .NotEnough :=
  ⟨by decide, range_check_at_write gOORres 512 10485760 pFar (by decide) (by decide)⟩

/-! ## Claim C10 -/

/-- C10: on every successful read the partition-decoding callback runs
over the primary array and then the backup array.  (1) In the
fixed-capacity `Gpt`, every slot `i` covered by the backup pass ends up
holding the entry decoded from the *backup* array (the backup pass
overwrites the primary pass).  (2) In the dynamic-capacity `_GptC`
(`Vec` collection), the partition list is the primary-array decodings
followed by the backup-array decodings — every on-disk entry is
appended twice, once per array. -/
theorem partitions_decoded_from_both_arrays :
    (∀ (N : Nat) (pB aB : List Nat) (func : ReadFn) (bs ds : Nat) (g : Gpt)
        (hp ha : Header) (i : Nat),
      Header.from_bytes (pB.drop 512) bs = .ok hp →
      Header.from_bytes aB bs = .ok ha →
      Gpt.from_bytes_with_size N pB aB func bs ds = .ok g →
      i < ha.partitions → i < N →
      g.partitions[i]? = some (Partition.from_bytes
        (func (ha.array * bs + PARTITION_ENTRY_SIZE * i) PARTITION_ENTRY_SIZE) bs)) ∧
    (∀ (pB aB : List Nat) (func : ReadFn) (bs ds : Nat) (gc : GptC) (hp ha : Header),
      Header.from_bytes (pB.drop 512) bs = .ok hp →
      Header.from_bytes aB bs = .ok ha →
      GptC.from_bytes_with_func pB aB func bs ds = .ok gc →
      gc.partitions =
        ((List.range hp.partitions).map fun i => Partition.from_bytes
          (func (hp.array * bs + PARTITION_ENTRY_SIZE * i) PARTITION_ENTRY_SIZE) bs) ++
        ((List.range ha.partitions).map fun i => Partition.from_bytes
          (func (ha.array * bs + PARTITION_ENTRY_SIZE * i) PARTITION_ENTRY_SIZE) bs)) := by
  constructor
  · intro N pB aB func bs ds g hp ha i hhp hha h hi1 hi2
    obtain ⟨calls, hv, rfl⟩ := Gpt.from_bytes_ok_inv N pB aB func bs ds g hp ha hhp hha h
    obtain ⟨_, _, _, _, _, _, hcalls⟩ := validate_ok_inv hp ha func bs ds calls hv
    subst hcalls
    show ((partCalls func hp.partitions (hp.array * bs)
      ++ partCalls func ha.partitions (ha.array * bs)).foldl (gptReadStep bs)
      (List.replicate N Partition.new))[i]? = _
    rw [List.foldl_append]
    have hA0len : ((partCalls func hp.partitions (hp.array * bs)).foldl (gptReadStep bs)
        (List.replicate N Partition.new)).length = N := by
      rw [foldl_gptReadStep_length]; exact List.length_replicate N Partition.new
    exact foldl_partCalls_getElem bs
      (fun j => func (ha.array * bs + PARTITION_ENTRY_SIZE * j) PARTITION_ENTRY_SIZE)
      ha.partitions _ i hi1 (by rw [hA0len]; exact hi2)
  · intro pB aB func bs ds gc hp ha hhp hha h
    obtain ⟨calls, hv, rfl⟩ := GptC.from_bytes_ok_inv_c pB aB func bs ds gc hp ha hhp hha h
    obtain ⟨_, _, _, _, _, _, hcalls⟩ := validate_ok_inv hp ha func bs ds calls hv
    subst hcalls
    show (partCalls func hp.partitions (hp.array * bs)
      ++ partCalls func ha.partitions (ha.array * bs)).map
        (fun c => Partition.from_bytes c.2 bs) = _
    rw [List.map_append]
    simp only [partCalls, List.map_map]
    rfl

/-- C10 witness: the two-array image on capacity 4 — slot 0 holds the
backup decoding, and the `_GptC` list holds both decodings. -/
theorem partitions_decoded_from_both_arrays_inst :
    Gpt.from_bytes_with_size 4 primaryB10 altB10 func10 512 10485760 = .ok gRead10 ∧
    gRead10.partitions[0]? = some (Partition.from_bytes
      (func10 (hB10.array * 512 + PARTITION_ENTRY_SIZE * 0) PARTITION_ENTRY_SIZE) 512) ∧
    GptC.from_bytes_with_func primaryB10 altB10 func10 512 10485760 = .ok gcRead10 ∧
    gcRead10.partitions =
      ((List.range hP10.partitions).map fun i => Partition.from_bytes
        (func10 (hP10.array * 512 + PARTITION_ENTRY_SIZE * i) PARTITION_ENTRY_SIZE) 512) ++
      ((List.range hB10.partitions).map fun i => Partition.from_bytes
        (func10 (hB10.array * 512 + PARTITION_ENTRY_SIZE * i) PARTITION_ENTRY_SIZE) 512) :=
  ⟨read10_ok,
   partitions_decoded_from_both_arrays.1 4 primaryB10 altB10 func10 512 10485760
     gRead10 hP10 hB10 0 hdr10_primary hdr10_alt read10_ok (by decide) (by decide),
   readC10_ok,
   partitions_decoded_from_both_arrays.2 primaryB10 altB10 func10 512 10485760
     gcRead10 hP10 hB10 hdr10_primary hdr10_alt readC10_ok⟩

end Parts
